import Mathlib

/-!
Verification of the aip-otel-exporter mapping core.

This file gives a shallow embedding of the Python package
`aip_otel_exporter` (files `manual.py`, `span_builder.py`, `metrics.py`,
`attributes.py`, `__init__.py`) and proves properties of the record
mappers, span emitter, metric mappers and the lazy-import hook.

Python values are modelled by `PyVal` (None, bool, int, str, list, dict);
floats in inputs are irrelevant to every property proved here and are
represented like any other scalar by the constructors that occur in the
claims (`int`, `str`, `bool`).  Fallible Python operations (attribute
access on a non-dict, `len` of a non-sized value, iteration of a
non-iterable) are modelled in the `Option` monad: a raised exception is
`Option.none`.  `x.get(k)` on a dict returns the stored value, or Python
`None` (`PyVal.none`) when the key is absent, exactly as in CPython, so an
absent key and a key stored as None are indistinguishable to `.get` --
which is the behaviour the source relies on.
-/

set_option autoImplicit false

inductive PyVal where
  | none
  | bool (b : Bool)
  | int (n : Int)
  | str (s : String)
  | list (xs : List PyVal)
  | dict (kvs : List (String × PyVal))

/-- Python truthiness (`bool(v)`): None/False/0/""/[]/{} are falsy. -/
def PyVal.isTruthy : PyVal → Bool
  | .none => false
  | .bool b => b
  | .int n => n != 0
  | .str s => s != ""
  | .list xs => !xs.isEmpty
  | .dict kvs => !kvs.isEmpty

/-- Python `v is None`. -/
def PyVal.isNone : PyVal → Bool
  | .none => true
  | _ => false

def PyVal.isDict : PyVal → Bool
  | .dict _ => true
  | _ => false

def PyVal.isStr : PyVal → Bool
  | .str _ => true
  | _ => false

/-- Python `v or d`: `d` when `v` is falsy, else `v`. -/
def pyOr (v d : PyVal) : PyVal := if v.isTruthy then v else d

/-- First binding of key `k` in an association list (a Python dict has
unique keys, so first-match is exact). -/
def dictFind (kvs : List (String × PyVal)) (k : String) : Option PyVal :=
  (kvs.find? (fun p => p.1 == k)).map Prod.snd

/-- Python `d.get(k)` on a dict: the stored value, or None when absent. -/
def dictGet (kvs : List (String × PyVal)) (k : String) : PyVal :=
  (dictFind kvs k).getD PyVal.none

/-- Python `v.get(k)`: raises (here `Option.none`) unless `v` is a dict. -/
def pyGet : PyVal → String → Option PyVal
  | .dict kvs, k => some (dictGet kvs k)
  | _, _ => Option.none

/-- Python `v.get(k, d)`: the stored value when the key is present (even if
stored as None), else the default `d`; raises unless `v` is a dict. -/
def pyGetD : PyVal → String → PyVal → Option PyVal
  | .dict kvs, k, d => some ((dictFind kvs k).getD d)
  | _, _, _ => Option.none

/-- Python `len(v)`: defined for list/str/dict, raises otherwise. -/
def pyLen : PyVal → Option Nat
  | .list xs => some xs.length
  | .str s => some s.length
  | .dict kvs => some kvs.length
  | _ => Option.none

/-- Python iteration `for x in v`: elements of a list, characters of a
string, keys of a dict; raises otherwise. -/
def pyIter : PyVal → Option (List PyVal)
  | .list xs => some xs
  | .str s => some (s.data.map (fun c => PyVal.str c.toString))
  | .dict kvs => some (kvs.map (fun p => PyVal.str p.1))
  | _ => Option.none

def pyStr? : PyVal → Option String
  | .str s => some s
  | _ => Option.none

/-- Checks that every element of an iterable is a string, as `str.join`
does element by element, failing on the first non-string. -/
def mapStrs : List PyVal → Option (List String)
  | [] => some []
  | a :: t =>
    match pyStr? a with
    | Option.none => Option.none
    | some s =>
      match mapStrs t with
      | Option.none => Option.none
      | some ss => some (s :: ss)

/-- Python `sep.join(v)`: joins an iterable of strings. -/
def pyJoin (sep : String) (v : PyVal) : Option String :=
  match pyIter v with
  | Option.none => Option.none
  | some items =>
  match mapStrs items with
  | Option.none => Option.none
  | some strs => some (String.intercalate sep strs)

/-- Python `len(v) if v is not None else None`, the count-attribute idiom
used throughout `manual.py`. -/
def pyCountIfNotNone (v : PyVal) : Option PyVal :=
  if v.isNone then some PyVal.none
  else (pyLen v).map (fun n => PyVal.int n)

/-! Total accessors used only in statements and models.  `tGet v k` is
`v.get(k)` extended by None on non-dicts; under the well-formedness
hypotheses below it agrees with the fallible `pyGet`. -/

def tGet (v : PyVal) (k : String) : PyVal :=
  match v with
  | .dict kvs => dictGet kvs k
  | _ => PyVal.none

def tGetD (v : PyVal) (k : String) (d : PyVal) : PyVal :=
  match v with
  | .dict kvs => (dictFind kvs k).getD d
  | _ => d

/-- Nested field access along a key path, treating any non-dict as an
empty record (the coalescing the mappers perform with `or {}`). -/
def getPath (v : PyVal) : List String → PyVal
  | [] => v
  | k :: ks => getPath (tGet v k) ks

/-- Length of a list value, 0 for absent/None (and any non-list). -/
def lenOrZero : PyVal → Nat
  | .list xs => xs.length
  | _ => 0

/-- Value of a count attribute: None stays None, a sized value maps to its
length (mirrors `pyCountIfNotNone` on its success domain). -/
def countOf : PyVal → PyVal
  | .none => PyVal.none
  | .list xs => PyVal.int xs.length
  | .str s => PyVal.int s.length
  | .dict kvs => PyVal.int kvs.length
  | _ => PyVal.none

def iterOf : PyVal → List PyVal
  | .list xs => xs
  | _ => []

/-! Span model (`span_builder.py`).  A span is its name, kind, the
attributes actually set on it, its events, terminal status and whether it
was ended. -/

structure SpanEvent where
  name : String
  attributes : List (String × PyVal)

structure Span where
  name : String
  kind : String
  attributes : List (String × PyVal)
  events : List SpanEvent
  status : String
  ended : Bool

/-- Translation of `set_optional_attributes`: set attributes on a span,
skipping any whose value is None.  The span's resulting attribute map is
the input dict restricted to non-None values (keys are unique, insertion
order kept). -/
def set_optional_attributes (attrs : List (String × PyVal)) : List (String × PyVal) :=
  attrs.filter (fun p => !p.2.isNone)

/-- Translation of `build_span`: start an INTERNAL span, set non-None
attributes, add the events, set status OK, end the span and return it. -/
def build_span (span_name : String) (attributes : List (String × PyVal))
    (events : List SpanEvent := []) : Span :=
  { name := span_name
    kind := "INTERNAL"
    attributes := set_optional_attributes attributes
    events := events
    status := "OK"
    ended := true }

/-- Lookup of an attribute on a span's attribute map. -/
def lookupAttr (attrs : List (String × PyVal)) (k : String) : Option PyVal :=
  (attrs.find? (fun p => p.1 == k)).map Prod.snd

/-! Attribute name constants (`attributes.py`).  The two names for the
window integrity ratio carry a `_KEY` suffix here for technical reasons;
their string values are unchanged from the source. -/

def AIP_INTEGRITY_CHECKPOINT_ID : String := "aip.integrity.checkpoint_id"
def AIP_INTEGRITY_VERDICT : String := "aip.integrity.verdict"
def AIP_INTEGRITY_PROCEED : String := "aip.integrity.proceed"
def AIP_INTEGRITY_RECOMMENDED_ACTION : String := "aip.integrity.recommended_action"
def AIP_INTEGRITY_CONCERNS_COUNT : String := "aip.integrity.concerns_count"
def AIP_INTEGRITY_AGENT_ID : String := "aip.integrity.agent_id"
def AIP_INTEGRITY_CARD_ID : String := "aip.integrity.card_id"
def AIP_INTEGRITY_SESSION_ID : String := "aip.integrity.session_id"
def AIP_INTEGRITY_THINKING_HASH : String := "aip.integrity.thinking_hash"
def AIP_INTEGRITY_ANALYSIS_MODEL : String := "aip.integrity.analysis_model"
def AIP_INTEGRITY_ANALYSIS_DURATION_MS : String := "aip.integrity.analysis_duration_ms"
def AIP_INTEGRITY_THINKING_TOKENS : String := "aip.integrity.thinking_tokens"
def AIP_INTEGRITY_TRUNCATED : String := "aip.integrity.truncated"
def AIP_INTEGRITY_EXTRACTION_CONFIDENCE : String := "aip.integrity.extraction_confidence"
def AIP_CONSCIENCE_CONSULTATION_DEPTH : String := "aip.conscience.consultation_depth"
def AIP_CONSCIENCE_VALUES_CHECKED_COUNT : String := "aip.conscience.values_checked_count"
def AIP_CONSCIENCE_CONFLICTS_COUNT : String := "aip.conscience.conflicts_count"
def AIP_WINDOW_SIZE : String := "aip.window.size"
def AIP_WINDOW_INTEGRITY_RATIO_KEY : String := "aip.window.integrity_ratio"
def AIP_WINDOW_DRIFT_ALERT_ACTIVE : String := "aip.window.drift_alert_active"
def GEN_AI_EVALUATION_VERDICT : String := "gen_ai.evaluation.verdict"
def GEN_AI_EVALUATION_SCORE : String := "gen_ai.evaluation.score"
def AAP_VERIFICATION_RESULT : String := "aap.verification.result"
def AAP_VERIFICATION_SIMILARITY_SCORE : String := "aap.verification.similarity_score"
def AAP_VERIFICATION_VIOLATIONS_COUNT : String := "aap.verification.violations_count"
def AAP_VERIFICATION_WARNINGS_COUNT : String := "aap.verification.warnings_count"
def AAP_VERIFICATION_TRACE_ID : String := "aap.verification.trace_id"
def AAP_VERIFICATION_CARD_ID : String := "aap.verification.card_id"
def AAP_VERIFICATION_DURATION_MS : String := "aap.verification.duration_ms"
def AAP_VERIFICATION_CHECKS_PERFORMED : String := "aap.verification.checks_performed"
def AAP_COHERENCE_COMPATIBLE : String := "aap.coherence.compatible"
def AAP_COHERENCE_SCORE : String := "aap.coherence.score"
def AAP_COHERENCE_PROCEED : String := "aap.coherence.proceed"
def AAP_COHERENCE_MATCHED_COUNT : String := "aap.coherence.matched_count"
def AAP_COHERENCE_CONFLICT_COUNT : String := "aap.coherence.conflict_count"
def AAP_DRIFT_ALERTS_COUNT : String := "aap.drift.alerts_count"
def AAP_DRIFT_TRACES_ANALYZED : String := "aap.drift.traces_analyzed"
def SPAN_AIP_INTEGRITY_CHECK : String := "aip.integrity_check"
def SPAN_AAP_VERIFY_TRACE : String := "aap.verify_trace"
def SPAN_AAP_CHECK_COHERENCE : String := "aap.check_coherence"
def SPAN_AAP_DETECT_DRIFT : String := "aap.detect_drift"
def EVENT_AIP_CONCERN : String := "aip.concern"
def EVENT_AIP_DRIFT_ALERT : String := "aip.drift_alert"
def EVENT_AAP_VIOLATION : String := "aap.violation"
def EVENT_AAP_DRIFT_ALERT : String := "aap.drift_alert"
def METRIC_AIP_INTEGRITY_CHECKS_TOTAL : String := "aip.integrity_checks.total"
def METRIC_AIP_CONCERNS_TOTAL : String := "aip.concerns.total"
def METRIC_AIP_ANALYSIS_DURATION : String := "aip.analysis.duration_ms"
def METRIC_AIP_WINDOW_INTEGRITY_RATIO_KEY : String := "aip.window.integrity_ratio"
def METRIC_AIP_DRIFT_ALERTS_TOTAL : String := "aip.drift_alerts.total"
def METRIC_AAP_VERIFICATIONS_TOTAL : String := "aap.verifications.total"
def METRIC_AAP_VIOLATIONS_TOTAL : String := "aap.violations.total"
def METRIC_AAP_VERIFICATION_DURATION : String := "aap.verification.duration_ms"
def METRIC_AAP_COHERENCE_SCORE : String := "aap.coherence.score"

/-! Record mappers (`manual.py`).  Each mapper is the straight-line
translation of the corresponding Python function; the tracer argument is
dropped (the tracer only carries the span to the exporter). -/

/-- Attribute dict literal of `record_integrity_check` (lines 47-84 of
`manual.py`): 22 entries, in source order.  `s` is `signal or {}`. -/
def integrity_attributes (s cp meta conscience win concerns values_checked conflicts : PyVal) :
    Option (List (String × PyVal)) :=
  match pyGet cp "checkpoint_id" with
  | Option.none => Option.none
  | some checkpoint_id =>
  match pyGet cp "verdict" with
  | Option.none => Option.none
  | some verdict =>
  match pyGet cp "agent_id" with
  | Option.none => Option.none
  | some agent_id =>
  match pyGet cp "card_id" with
  | Option.none => Option.none
  | some card_id =>
  match pyGet cp "session_id" with
  | Option.none => Option.none
  | some session_id =>
  match pyGet cp "thinking_block_hash" with
  | Option.none => Option.none
  | some thinking_block_hash =>
  match pyGet s "proceed" with
  | Option.none => Option.none
  | some proceed =>
  match pyGet s "recommended_action" with
  | Option.none => Option.none
  | some recommended_action =>
  match pyCountIfNotNone concerns with
  | Option.none => Option.none
  | some concerns_count =>
  match pyGet meta "analysis_model" with
  | Option.none => Option.none
  | some analysis_model =>
  match pyGet meta "analysis_duration_ms" with
  | Option.none => Option.none
  | some analysis_duration_ms =>
  match pyGet meta "thinking_tokens_original" with
  | Option.none => Option.none
  | some thinking_tokens_original =>
  match pyGet meta "truncated" with
  | Option.none => Option.none
  | some truncated =>
  match pyGet meta "extraction_confidence" with
  | Option.none => Option.none
  | some extraction_confidence =>
  match pyGet conscience "consultation_depth" with
  | Option.none => Option.none
  | some consultation_depth =>
  match pyCountIfNotNone values_checked with
  | Option.none => Option.none
  | some values_checked_count =>
  match pyCountIfNotNone conflicts with
  | Option.none => Option.none
  | some conflicts_count =>
  match pyGet win "size" with
  | Option.none => Option.none
  | some win_size =>
  match pyGet win "integrity_ratio" with
  | Option.none => Option.none
  | some integrity_ratio =>
  match pyGet win "drift_alert_active" with
  | Option.none => Option.none
  | some drift_alert_active =>
  some [

    (AIP_INTEGRITY_CHECKPOINT_ID, checkpoint_id),
    (AIP_INTEGRITY_VERDICT, verdict),
    (AIP_INTEGRITY_AGENT_ID, agent_id),
    (AIP_INTEGRITY_CARD_ID, card_id),
    (AIP_INTEGRITY_SESSION_ID, session_id),
    (AIP_INTEGRITY_THINKING_HASH, thinking_block_hash),
    (AIP_INTEGRITY_PROCEED, proceed),
    (AIP_INTEGRITY_RECOMMENDED_ACTION, recommended_action),
    (AIP_INTEGRITY_CONCERNS_COUNT, concerns_count),
    (AIP_INTEGRITY_ANALYSIS_MODEL, analysis_model),
    (AIP_INTEGRITY_ANALYSIS_DURATION_MS, analysis_duration_ms),
    (AIP_INTEGRITY_THINKING_TOKENS, thinking_tokens_original),
    (AIP_INTEGRITY_TRUNCATED, truncated),
    (AIP_INTEGRITY_EXTRACTION_CONFIDENCE, extraction_confidence),
    (AIP_CONSCIENCE_CONSULTATION_DEPTH, consultation_depth),
    (AIP_CONSCIENCE_VALUES_CHECKED_COUNT, values_checked_count),
    (AIP_CONSCIENCE_CONFLICTS_COUNT, conflicts_count),
    (AIP_WINDOW_SIZE, win_size),
    (AIP_WINDOW_INTEGRITY_RATIO_KEY, integrity_ratio),
    (AIP_WINDOW_DRIFT_ALERT_ACTIVE, drift_alert_active),
    (GEN_AI_EVALUATION_VERDICT, verdict),
    (GEN_AI_EVALUATION_SCORE, integrity_ratio)]

/-- Event built for one concern (loop body at lines 92-102 of
`manual.py`): three attributes, each defaulted to the empty string by
`concern.get(key, "")`. -/
def concern_event (concern : PyVal) : Option SpanEvent :=
  match pyGetD concern "category" (PyVal.str "") with
  | Option.none => Option.none
  | some category =>
  match pyGetD concern "severity" (PyVal.str "") with
  | Option.none => Option.none
  | some severity =>
  match pyGetD concern "description" (PyVal.str "") with
  | Option.none => Option.none
  | some description =>
  some (SpanEvent.mk EVENT_AIP_CONCERN
    [("category", category), ("severity", severity), ("description", description)])

/-- A Python `for` loop that builds one span event per element, raising
(propagating `Option.none`) as soon as one iteration raises. -/
def mapEvents (f : PyVal → Option SpanEvent) : List PyVal → Option (List SpanEvent)
  | [] => some []
  | a :: t =>
    match f a with
    | Option.none => Option.none
    | some e =>
      match mapEvents f t with
      | Option.none => Option.none
      | some es => some (e :: es)

/-- Events block of `record_integrity_check` (lines 91-102): one event per
concern when the list is truthy. -/
def concern_events (concerns : PyVal) : Option (List SpanEvent) :=
  if concerns.isTruthy then
    match pyIter concerns with
    | Option.none => Option.none
    | some items => mapEvents concern_event items
  else some []

/-- Translation of `record_integrity_check`. -/
def record_integrity_check (signal : PyVal) : Option Span :=
  match pyGet (pyOr signal (PyVal.dict [])) "checkpoint" with
  | Option.none => Option.none
  | some cpv =>
  let cp := pyOr cpv (PyVal.dict [])
  match pyGet cp "analysis_metadata" with
  | Option.none => Option.none
  | some metav =>
  let meta := pyOr metav (PyVal.dict [])
  match pyGet cp "conscience_context" with
  | Option.none => Option.none
  | some conscv =>
  let conscience := pyOr conscv (PyVal.dict [])
  match pyGet (pyOr signal (PyVal.dict [])) "window_summary" with
  | Option.none => Option.none
  | some winv =>
  let win := pyOr winv (PyVal.dict [])
  match pyGet cp "concerns" with
  | Option.none => Option.none
  | some concerns =>
  match pyGet conscience "values_checked" with
  | Option.none => Option.none
  | some values_checked =>
  match pyGet conscience "conflicts" with
  | Option.none => Option.none
  | some conflicts =>
  match integrity_attributes (pyOr signal (PyVal.dict [])) cp meta conscience win
      concerns values_checked conflicts with
  | Option.none => Option.none
  | some attributes =>
  match concern_events concerns with
  | Option.none => Option.none
  | some concernEvents =>
  match pyGet win "drift_alert_active" with
  | Option.none => Option.none
  | some driftActive =>
  some (build_span SPAN_AIP_INTEGRITY_CHECK attributes
    (concernEvents ++
      (if driftActive.isTruthy then [SpanEvent.mk EVENT_AIP_DRIFT_ALERT []] else [])))

/-- Event built for one violation (loop body at lines 152-163 of
`manual.py`). -/
def violation_event (violation : PyVal) : Option SpanEvent :=
  match pyGetD violation "type" (PyVal.str "") with
  | Option.none => Option.none
  | some vtype =>
  match pyGetD violation "severity" (PyVal.str "") with
  | Option.none => Option.none
  | some severity =>
  match pyGetD violation "description" (PyVal.str "") with
  | Option.none => Option.none
  | some description =>
  some (SpanEvent.mk EVENT_AAP_VIOLATION
    [("type", vtype), ("severity", severity), ("description", description)])

/-- Events block of `record_verification` (lines 150-163): one event per
violation when the list is truthy. -/
def violation_events (violations : PyVal) : Option (List SpanEvent) :=
  if violations.isTruthy then
    match pyIter violations with
    | Option.none => Option.none
    | some items => mapEvents violation_event items
  else some []

/-- Translation of `record_verification`. -/
def record_verification (result : PyVal) : Option Span :=
  let result := pyOr result (PyVal.dict [])
  match pyGet result "verification_metadata" with
  | Option.none => Option.none
  | some metav =>
  let meta := pyOr metav (PyVal.dict [])
  match pyGet result "violations" with
  | Option.none => Option.none
  | some violations =>
  match pyGet result "warnings" with
  | Option.none => Option.none
  | some warnings =>
  match pyGet meta "checks_performed" with
  | Option.none => Option.none
  | some checks_performed =>
  match pyGet result "verified" with
  | Option.none => Option.none
  | some verified =>
  match pyGet result "similarity_score" with
  | Option.none => Option.none
  | some similarity_score =>
  match pyCountIfNotNone violations with
  | Option.none => Option.none
  | some violations_count =>
  match pyCountIfNotNone warnings with
  | Option.none => Option.none
  | some warnings_count =>
  match pyGet result "trace_id" with
  | Option.none => Option.none
  | some trace_id =>
  match pyGet result "card_id" with
  | Option.none => Option.none
  | some card_id =>
  match pyGet meta "duration_ms" with
  | Option.none => Option.none
  | some duration_ms =>
  match (if checks_performed.isTruthy then (pyJoin ", " checks_performed).map PyVal.str
         else some PyVal.none) with
  | Option.none => Option.none
  | some checks_joined =>
  match violation_events violations with
  | Option.none => Option.none
  | some events =>
  some (build_span SPAN_AAP_VERIFY_TRACE [
    (AAP_VERIFICATION_RESULT, verified),
    (AAP_VERIFICATION_SIMILARITY_SCORE, similarity_score),
    (AAP_VERIFICATION_VIOLATIONS_COUNT, violations_count),
    (AAP_VERIFICATION_WARNINGS_COUNT, warnings_count),
    (AAP_VERIFICATION_TRACE_ID, trace_id),
    (AAP_VERIFICATION_CARD_ID, card_id),
    (AAP_VERIFICATION_DURATION_MS, duration_ms),
    (AAP_VERIFICATION_CHECKS_PERFORMED, checks_joined)] events)

/-- Translation of `record_coherence`. -/
def record_coherence (result : PyVal) : Option Span :=
  let result := pyOr result (PyVal.dict [])
  match pyGet result "value_alignment" with
  | Option.none => Option.none
  | some vav =>
  let value_alignment := pyOr vav (PyVal.dict [])
  match pyGet value_alignment "matched" with
  | Option.none => Option.none
  | some matched =>
  match pyGet value_alignment "conflicts" with
  | Option.none => Option.none
  | some conflicts =>
  match pyGet result "compatible" with
  | Option.none => Option.none
  | some compatible =>
  match pyGet result "score" with
  | Option.none => Option.none
  | some score =>
  match pyGet result "proceed" with
  | Option.none => Option.none
  | some proceed =>
  match pyCountIfNotNone matched with
  | Option.none => Option.none
  | some matched_count =>
  match pyCountIfNotNone conflicts with
  | Option.none => Option.none
  | some conflict_count =>
  some (build_span SPAN_AAP_CHECK_COHERENCE [
    (AAP_COHERENCE_COMPATIBLE, compatible),
    (AAP_COHERENCE_SCORE, score),
    (AAP_COHERENCE_PROCEED, proceed),
    (AAP_COHERENCE_MATCHED_COUNT, matched_count),
    (AAP_COHERENCE_CONFLICT_COUNT, conflict_count)])

/-- Event attribute dict built for one drift alert (lines 220-234 of
`manual.py`): each of six keys is inserted only when its source field is
not None; `analysis` is coalesced with `or {}` first. -/
def drift_event_attrs (alert : PyVal) : Option (List (String × PyVal)) :=
  match pyGet alert "analysis" with
  | Option.none => Option.none
  | some analysisv =>
  let analysis := pyOr analysisv (PyVal.dict [])
  match pyGet alert "alert_type" with
  | Option.none => Option.none
  | some alert_type =>
  match pyGet alert "agent_id" with
  | Option.none => Option.none
  | some agent_id =>
  match pyGet alert "card_id" with
  | Option.none => Option.none
  | some card_id =>
  match pyGet analysis "similarity_score" with
  | Option.none => Option.none
  | some similarity_score =>
  match pyGet analysis "drift_direction" with
  | Option.none => Option.none
  | some drift_direction =>
  match pyGet alert "recommendation" with
  | Option.none => Option.none
  | some recommendation =>
  some ((if !alert_type.isNone then [("alert_type", alert_type)] else []) ++
        (if !agent_id.isNone then [("agent_id", agent_id)] else []) ++
        (if !card_id.isNone then [("card_id", card_id)] else []) ++
        (if !similarity_score.isNone then [("similarity_score", similarity_score)] else []) ++
        (if !drift_direction.isNone then [("drift_direction", drift_direction)] else []) ++
        (if !recommendation.isNone then [("recommendation", recommendation)] else []))

/-- One span event per drift alert (loop body at lines 219-241). -/
def drift_event (alert : PyVal) : Option SpanEvent :=
  match drift_event_attrs alert with
  | Option.none => Option.none
  | some event_attrs => some (SpanEvent.mk EVENT_AAP_DRIFT_ALERT event_attrs)

/-- Translation of `record_drift`. -/
def record_drift (alerts : PyVal) (traces_analyzed : Int := 0) : Option Span :=
  let alerts := pyOr alerts (PyVal.list [])
  match (if alerts.isTruthy then (pyLen alerts).map (fun n => PyVal.int n)
         else some (PyVal.int 0)) with
  | Option.none => Option.none
  | some alertsCount =>
  match pyIter alerts with
  | Option.none => Option.none
  | some items =>
  match mapEvents drift_event items with
  | Option.none => Option.none
  | some events =>
  some (build_span SPAN_AAP_DETECT_DRIFT [
    (AAP_DRIFT_ALERTS_COUNT, alertsCount),
    (AAP_DRIFT_TRACES_ANALYZED, PyVal.int traces_analyzed)] events)

/-! Metric mappers (`metrics.py`).  Instruments are modelled by their
constructor kind and registration data; a recorder returns the list of
instrument operations it performs (by the instrument's short name in the
dict returned by `create_aip_metrics`). -/

inductive Instrument where
  | counter (name description : String)
  | histogram (name description : String) (unit : Option String)

def Instrument.isCounter : Instrument → Bool
  | .counter _ _ => true
  | _ => false

def Instrument.isHistogram : Instrument → Bool
  | .histogram _ _ _ => true
  | _ => false

/-- Translation of `create_aip_metrics`: the dict of named instruments
created on one meter, in source order. -/
def create_aip_metrics : List (String × Instrument) := [
  ("integrity_checks",
    Instrument.counter METRIC_AIP_INTEGRITY_CHECKS_TOTAL "Total AIP integrity checks"),
  ("concerns", Instrument.counter METRIC_AIP_CONCERNS_TOTAL "Total AIP concerns raised"),
  ("analysis_duration",
    Instrument.histogram METRIC_AIP_ANALYSIS_DURATION "AIP analysis duration in ms" (some "ms")),
  ("integrity_ratio",
    Instrument.histogram METRIC_AIP_WINDOW_INTEGRITY_RATIO_KEY "Window integrity ratio"
      Option.none),
  ("drift_alerts", Instrument.counter METRIC_AIP_DRIFT_ALERTS_TOTAL "Total drift alerts"),
  ("verifications",
    Instrument.counter METRIC_AAP_VERIFICATIONS_TOTAL "Total AAP verifications"),
  ("violations", Instrument.counter METRIC_AAP_VIOLATIONS_TOTAL "Total AAP violations"),
  ("verification_duration",
    Instrument.histogram METRIC_AAP_VERIFICATION_DURATION "AAP verification duration in ms"
      (some "ms")),
  ("coherence_score",
    Instrument.histogram METRIC_AAP_COHERENCE_SCORE "AAP coherence score" Option.none)]

/-- One operation performed on a named instrument of the metrics dict. -/
inductive MetricOp where
  | add (instrument : String) (amount : Int) (labels : List (String × PyVal))
  | record (instrument : String) (value : PyVal) (labels : List (String × PyVal))

/-- Concern-counter block of `record_integrity_metrics` (lines 103-105):
adds the concern count under the verdict label only when the list is
truthy. -/
def concerns_metric_ops (concerns verdict : PyVal) : Option (List MetricOp) :=
  if concerns.isTruthy then
    match pyLen concerns with
    | Option.none => Option.none
    | some n => some [MetricOp.add "concerns" (Int.ofNat n) [("verdict", verdict)]]
  else some []

/-- Translation of `record_integrity_metrics`: the sequence of instrument
operations performed for one integrity signal. -/
def record_integrity_metrics (signal : PyVal) : Option (List MetricOp) :=
  let s := pyOr signal (PyVal.dict [])
  match pyGet s "checkpoint" with
  | Option.none => Option.none
  | some cpv =>
  let cp := pyOr cpv (PyVal.dict [])
  match pyGet cp "analysis_metadata" with
  | Option.none => Option.none
  | some metav =>
  let meta := pyOr metav (PyVal.dict [])
  match pyGet s "window_summary" with
  | Option.none => Option.none
  | some winv =>
  let win := pyOr winv (PyVal.dict [])
  match pyGet cp "verdict" with
  | Option.none => Option.none
  | some verdictv =>
  let verdict := pyOr verdictv (PyVal.str "unknown")
  match pyGet cp "concerns" with
  | Option.none => Option.none
  | some concerns =>
  match concerns_metric_ops concerns verdict with
  | Option.none => Option.none
  | some concernsOps =>
  match pyGet meta "analysis_duration_ms" with
  | Option.none => Option.none
  | some duration =>
  match pyGet win "integrity_ratio" with
  | Option.none => Option.none
  | some ratio =>
  match pyGet win "drift_alert_active" with
  | Option.none => Option.none
  | some driftActive =>
  some ([MetricOp.add "integrity_checks" 1 [("verdict", verdict)]] ++
    concernsOps ++
    (if !duration.isNone then
       [MetricOp.record "analysis_duration" duration [("verdict", verdict)]]
     else []) ++
    (if !ratio.isNone then [MetricOp.record "integrity_ratio" ratio []] else []) ++
    (if driftActive.isTruthy then [MetricOp.add "drift_alerts" 1 []] else []))

/-! Lazy import hook (`__init__.py` lines 59-70).  Module attribute access
is modelled as a function of the attribute name and of whether the
optional `opentelemetry-instrumentation` dependency is importable; a
raised exception is `Except.error` with the exception message, so an
error is produced at the access (obtention) itself and no attribute value
ever exists to be used later. -/

def INSTRUMENTOR_IMPORT_ERROR_MSG : String :=
  "AIPInstrumentor requires the \x27opentelemetry-instrumentation\x27 " ++
  "package. Install it with: pip install opentelemetry-instrumentation"

def package_getattr (instrumentation_installed : Bool) (name : String) :
    Except String String :=
  if name = "AIPInstrumentor" then
    if instrumentation_installed then Except.ok "AIPInstrumentor"
    else Except.error INSTRUMENTOR_IMPORT_ERROR_MSG
  else Except.error ("module \x27aip_otel_exporter\x27 has no attribute \x27" ++ name ++ "\x27")

/-- Pattern `pat` begins the character list `xs`. -/
def charsLeading : List Char → List Char → Bool
  | [], _ => true
  | _ :: _, [] => false
  | a :: pat, b :: xs => a == b && charsLeading pat xs

/-- Pattern `pat` occurs somewhere in the character list `xs`. -/
def charsContain (pat : List Char) : List Char → Bool
  | [] => pat.isEmpty
  | b :: xs => charsLeading pat (b :: xs) || charsContain pat xs

/-- Substring containment, used to state that an error message names the
missing dependency. -/
def containsSubstr (s sub : String) : Bool :=
  charsContain sub.data s.data

/-! Well-formedness of inputs.  The mappers are duck-typed: they raise
only when a value of the wrong shape sits where a record, list or string
is expected.  The predicates below carve out the loosely-typed record
domain of the spec -- every field may be absent or None, and a parent
object may be any falsy value or a dict -- and are decidable so concrete
instances evaluate. -/

/-- The shapes accepted where the source writes `x.get(...)` after
coalescing with `or {}`: any falsy value or a dict. -/
def dictish (v : PyVal) : Bool := !v.isTruthy || v.isDict

def listOrNone : PyVal → Bool
  | .none => true
  | .list _ => true
  | _ => false

def listOfDictsOrNone : PyVal → Bool
  | .none => true
  | .list xs => xs.all PyVal.isDict
  | _ => false

def strListOrNone : PyVal → Bool
  | .none => true
  | .list xs => xs.all PyVal.isStr
  | _ => false

/-- Well-formed integrity signal: every parent object is absent/falsy or a
dict, `concerns` absent or a list of dicts, the two conscience lists
absent or lists. -/
def IntegrityWF (signal : PyVal) : Bool :=
  let s := pyOr signal (PyVal.dict [])
  let cp := pyOr (tGet s "checkpoint") (PyVal.dict [])
  let conscience := pyOr (tGet cp "conscience_context") (PyVal.dict [])
  dictish signal &&
  (dictish (tGet s "checkpoint") &&
  (dictish (tGet s "window_summary") &&
  (dictish (tGet cp "analysis_metadata") &&
  (dictish (tGet cp "conscience_context") &&
  (listOfDictsOrNone (tGet cp "concerns") &&
  (listOrNone (tGet conscience "values_checked") &&
  listOrNone (tGet conscience "conflicts")))))))

/-- Well-formed verification result. -/
def VerificationWF (result : PyVal) : Bool :=
  let r := pyOr result (PyVal.dict [])
  let meta := pyOr (tGet r "verification_metadata") (PyVal.dict [])
  dictish result &&
  (dictish (tGet r "verification_metadata") &&
  (listOfDictsOrNone (tGet r "violations") &&
  (listOrNone (tGet r "warnings") &&
  strListOrNone (tGet meta "checks_performed"))))

/-- Well-formed coherence result. -/
def CoherenceWF (result : PyVal) : Bool :=
  let r := pyOr result (PyVal.dict [])
  let va := pyOr (tGet r "value_alignment") (PyVal.dict [])
  dictish result &&
  (dictish (tGet r "value_alignment") &&
  (listOrNone (tGet va "matched") &&
  listOrNone (tGet va "conflicts")))

/-- Well-formed drift alert: a dict whose `analysis` field is absent/falsy
or a dict. -/
def DriftAlertWF (a : PyVal) : Bool :=
  a.isDict && dictish (tGet a "analysis")

/-- Well-formed drift input: absent/falsy or a list of well-formed
alerts. -/
def DriftWF (alerts : PyVal) : Bool :=
  match pyOr alerts (PyVal.list []) with
  | .list xs => xs.all DriftAlertWF
  | _ => false

/-! Functional models.  Each `*_model` definition gives the value the
corresponding translated function computes on well-formed input, written
with the total accessors; the `*_eval` lemmas below prove the agreement,
and every claim theorem is stated about the translated functions
themselves. -/

/-- A drift-alert event attribute: kept only when the source field is not
None. -/
def optIfPresent (v : PyVal) : Option PyVal :=
  if v.isNone then Option.none else some v

def integrity_attributes_model
    (s cp meta conscience win concerns values_checked conflicts : PyVal) :
    List (String × PyVal) :=
  [(AIP_INTEGRITY_CHECKPOINT_ID, tGet cp "checkpoint_id"),
   (AIP_INTEGRITY_VERDICT, tGet cp "verdict"),
   (AIP_INTEGRITY_AGENT_ID, tGet cp "agent_id"),
   (AIP_INTEGRITY_CARD_ID, tGet cp "card_id"),
   (AIP_INTEGRITY_SESSION_ID, tGet cp "session_id"),
   (AIP_INTEGRITY_THINKING_HASH, tGet cp "thinking_block_hash"),
   (AIP_INTEGRITY_PROCEED, tGet s "proceed"),
   (AIP_INTEGRITY_RECOMMENDED_ACTION, tGet s "recommended_action"),
   (AIP_INTEGRITY_CONCERNS_COUNT, countOf concerns),
   (AIP_INTEGRITY_ANALYSIS_MODEL, tGet meta "analysis_model"),
   (AIP_INTEGRITY_ANALYSIS_DURATION_MS, tGet meta "analysis_duration_ms"),
   (AIP_INTEGRITY_THINKING_TOKENS, tGet meta "thinking_tokens_original"),
   (AIP_INTEGRITY_TRUNCATED, tGet meta "truncated"),
   (AIP_INTEGRITY_EXTRACTION_CONFIDENCE, tGet meta "extraction_confidence"),
   (AIP_CONSCIENCE_CONSULTATION_DEPTH, tGet conscience "consultation_depth"),
   (AIP_CONSCIENCE_VALUES_CHECKED_COUNT, countOf values_checked),
   (AIP_CONSCIENCE_CONFLICTS_COUNT, countOf conflicts),
   (AIP_WINDOW_SIZE, tGet win "size"),
   (AIP_WINDOW_INTEGRITY_RATIO_KEY, tGet win "integrity_ratio"),
   (AIP_WINDOW_DRIFT_ALERT_ACTIVE, tGet win "drift_alert_active"),
   (GEN_AI_EVALUATION_VERDICT, tGet cp "verdict"),
   (GEN_AI_EVALUATION_SCORE, tGet win "integrity_ratio")]

def concern_event_model (c : PyVal) : SpanEvent :=
  SpanEvent.mk EVENT_AIP_CONCERN
    [("category", tGetD c "category" (PyVal.str "")),
     ("severity", tGetD c "severity" (PyVal.str "")),
     ("description", tGetD c "description" (PyVal.str ""))]

def violation_event_model (v : PyVal) : SpanEvent :=
  SpanEvent.mk EVENT_AAP_VIOLATION
    [("type", tGetD v "type" (PyVal.str "")),
     ("severity", tGetD v "severity" (PyVal.str "")),
     ("description", tGetD v "description" (PyVal.str ""))]

def integrity_span_model (signal : PyVal) : Span :=
  let s := pyOr signal (PyVal.dict [])
  let cp := pyOr (tGet s "checkpoint") (PyVal.dict [])
  let meta := pyOr (tGet cp "analysis_metadata") (PyVal.dict [])
  let conscience := pyOr (tGet cp "conscience_context") (PyVal.dict [])
  let win := pyOr (tGet s "window_summary") (PyVal.dict [])
  let concerns := tGet cp "concerns"
  build_span SPAN_AIP_INTEGRITY_CHECK
    (integrity_attributes_model s cp meta conscience win concerns
      (tGet conscience "values_checked") (tGet conscience "conflicts"))
    ((if concerns.isTruthy then (iterOf concerns).map concern_event_model else []) ++
     (if (tGet win "drift_alert_active").isTruthy
      then [SpanEvent.mk EVENT_AIP_DRIFT_ALERT []] else []))

/-- Value of the `checks_performed` attribute before None-filtering. -/
def checks_joined_model (checks : PyVal) : PyVal :=
  if checks.isTruthy then
    match pyJoin ", " checks with
    | some s => PyVal.str s
    | Option.none => PyVal.none
  else PyVal.none

def verification_span_model (result : PyVal) : Span :=
  let r := pyOr result (PyVal.dict [])
  let meta := pyOr (tGet r "verification_metadata") (PyVal.dict [])
  let violations := tGet r "violations"
  build_span SPAN_AAP_VERIFY_TRACE
    [(AAP_VERIFICATION_RESULT, tGet r "verified"),
     (AAP_VERIFICATION_SIMILARITY_SCORE, tGet r "similarity_score"),
     (AAP_VERIFICATION_VIOLATIONS_COUNT, countOf violations),
     (AAP_VERIFICATION_WARNINGS_COUNT, countOf (tGet r "warnings")),
     (AAP_VERIFICATION_TRACE_ID, tGet r "trace_id"),
     (AAP_VERIFICATION_CARD_ID, tGet r "card_id"),
     (AAP_VERIFICATION_DURATION_MS, tGet meta "duration_ms"),
     (AAP_VERIFICATION_CHECKS_PERFORMED, checks_joined_model (tGet meta "checks_performed"))]
    (if violations.isTruthy then (iterOf violations).map violation_event_model else [])

def coherence_span_model (result : PyVal) : Span :=
  let r := pyOr result (PyVal.dict [])
  let va := pyOr (tGet r "value_alignment") (PyVal.dict [])
  build_span SPAN_AAP_CHECK_COHERENCE
    [(AAP_COHERENCE_COMPATIBLE, tGet r "compatible"),
     (AAP_COHERENCE_SCORE, tGet r "score"),
     (AAP_COHERENCE_PROCEED, tGet r "proceed"),
     (AAP_COHERENCE_MATCHED_COUNT, countOf (tGet va "matched")),
     (AAP_COHERENCE_CONFLICT_COUNT, countOf (tGet va "conflicts"))]

def drift_event_attrs_model (alert : PyVal) : List (String × PyVal) :=
  let analysis := pyOr (tGet alert "analysis") (PyVal.dict [])
  (if !(tGet alert "alert_type").isNone
   then [("alert_type", tGet alert "alert_type")] else []) ++
  (if !(tGet alert "agent_id").isNone
   then [("agent_id", tGet alert "agent_id")] else []) ++
  (if !(tGet alert "card_id").isNone
   then [("card_id", tGet alert "card_id")] else []) ++
  (if !(tGet analysis "similarity_score").isNone
   then [("similarity_score", tGet analysis "similarity_score")] else []) ++
  (if !(tGet analysis "drift_direction").isNone
   then [("drift_direction", tGet analysis "drift_direction")] else []) ++
  (if !(tGet alert "recommendation").isNone
   then [("recommendation", tGet alert "recommendation")] else [])

def drift_span_model (alerts : PyVal) (traces_analyzed : Int) : Span :=
  let coalesced := pyOr alerts (PyVal.list [])
  build_span SPAN_AAP_DETECT_DRIFT
    [(AAP_DRIFT_ALERTS_COUNT, PyVal.int (lenOrZero coalesced)),
     (AAP_DRIFT_TRACES_ANALYZED, PyVal.int traces_analyzed)]
    ((iterOf coalesced).map
      (fun a => SpanEvent.mk EVENT_AAP_DRIFT_ALERT (drift_event_attrs_model a)))

def integrity_metrics_model (signal : PyVal) : List MetricOp :=
  let s := pyOr signal (PyVal.dict [])
  let cp := pyOr (tGet s "checkpoint") (PyVal.dict [])
  let meta := pyOr (tGet cp "analysis_metadata") (PyVal.dict [])
  let win := pyOr (tGet s "window_summary") (PyVal.dict [])
  let verdict := pyOr (tGet cp "verdict") (PyVal.str "unknown")
  let concerns := tGet cp "concerns"
  [MetricOp.add "integrity_checks" 1 [("verdict", verdict)]] ++
  (if concerns.isTruthy
   then [MetricOp.add "concerns" (Int.ofNat (lenOrZero concerns)) [("verdict", verdict)]]
   else []) ++
  (if !(tGet meta "analysis_duration_ms").isNone
   then [MetricOp.record "analysis_duration" (tGet meta "analysis_duration_ms")
          [("verdict", verdict)]]
   else []) ++
  (if !(tGet win "integrity_ratio").isNone
   then [MetricOp.record "integrity_ratio" (tGet win "integrity_ratio") []] else []) ++
  (if (tGet win "drift_alert_active").isTruthy
   then [MetricOp.add "drift_alerts" 1 []] else [])

/-! Statement helpers and concrete example records used by the claim
theorems and their witnesses. -/

/-- The behaviour claimed for a count-bearing attribute: a None source
gives an absent attribute, a list source gives its length. -/
def countAttrOk (sp : Span) (key : String) (src : PyVal) : Prop :=
  (src = PyVal.none → lookupAttr sp.attributes key = Option.none) ∧
  (∀ xs, src = PyVal.list xs → lookupAttr sp.attributes key = some (PyVal.int xs.length))

/-- The six key groups of the integrity attribute dict, in source order. -/
def integrity_checkpoint_keys : List String :=
  [AIP_INTEGRITY_CHECKPOINT_ID, AIP_INTEGRITY_VERDICT, AIP_INTEGRITY_AGENT_ID,
   AIP_INTEGRITY_CARD_ID, AIP_INTEGRITY_SESSION_ID, AIP_INTEGRITY_THINKING_HASH]

def integrity_signal_keys : List String :=
  [AIP_INTEGRITY_PROCEED, AIP_INTEGRITY_RECOMMENDED_ACTION, AIP_INTEGRITY_CONCERNS_COUNT]

def integrity_analysis_keys : List String :=
  [AIP_INTEGRITY_ANALYSIS_MODEL, AIP_INTEGRITY_ANALYSIS_DURATION_MS,
   AIP_INTEGRITY_THINKING_TOKENS, AIP_INTEGRITY_TRUNCATED,
   AIP_INTEGRITY_EXTRACTION_CONFIDENCE]

def integrity_conscience_keys : List String :=
  [AIP_CONSCIENCE_CONSULTATION_DEPTH, AIP_CONSCIENCE_VALUES_CHECKED_COUNT,
   AIP_CONSCIENCE_CONFLICTS_COUNT]

def integrity_window_keys : List String :=
  [AIP_WINDOW_SIZE, AIP_WINDOW_INTEGRITY_RATIO_KEY, AIP_WINDOW_DRIFT_ALERT_ACTIVE]

def integrity_alias_keys : List String :=
  [GEN_AI_EVALUATION_VERDICT, GEN_AI_EVALUATION_SCORE]

/-- Example integrity signal (one concern, two values checked, conscience
conflicts and most scalar fields absent). -/
def exSignal : PyVal := PyVal.dict [
  ("checkpoint", PyVal.dict [
    ("verdict", PyVal.str "review_needed"),
    ("concerns", PyVal.list [PyVal.dict [
      ("category", PyVal.str "value_misalignment"),
      ("severity", PyVal.str "medium")]]),
    ("conscience_context", PyVal.dict [
      ("values_checked", PyVal.list [PyVal.str "v1", PyVal.str "v2"])])]),
  ("proceed", PyVal.bool true),
  ("window_summary", PyVal.dict [("drift_alert_active", PyVal.bool false)])]

/-- Example verification result (empty violations list, two checks). -/
def exVerification : PyVal := PyVal.dict [
  ("verified", PyVal.bool true),
  ("violations", PyVal.list []),
  ("verification_metadata", PyVal.dict [
    ("checks_performed", PyVal.list [PyVal.str "a", PyVal.str "b"])])]

/-- Example coherence result with no value_alignment parent. -/
def exCoherence : PyVal := PyVal.dict [("compatible", PyVal.bool true)]

/-- Example drift alert list: one alert with no analysis sub-object. -/
def exDriftAlerts : PyVal :=
  PyVal.list [PyVal.dict [("alert_type", PyVal.str "drift_detected")]]

/-! Basic lemmas about the Python-value helpers. -/

theorem pyGet_dict (kvs : List (String × PyVal)) (k : String) :
    pyGet (PyVal.dict kvs) k = some (dictGet kvs k) := rfl

theorem tGet_dict (kvs : List (String × PyVal)) (k : String) :
    tGet (PyVal.dict kvs) k = dictGet kvs k := rfl

theorem dictGet_nil (k : String) : dictGet [] k = PyVal.none := rfl

theorem dictGet_cons (k : String) (v : PyVal) (t : List (String × PyVal)) (q : String) :
    dictGet ((k, v) :: t) q = if k == q then v else dictGet t q := by
  by_cases h : (k == q)
  · simp [dictGet, dictFind, List.find?_cons_of_pos _ h, h]
  · simp only [Bool.not_eq_true] at h
    have h' : ¬ (fun (p : String × PyVal) => p.1 == q) (k, v) = true := by simp [h]
    simp [dictGet, dictFind, List.find?_cons_of_neg _ h', h]

theorem lookupAttr_nil (k : String) : lookupAttr [] k = Option.none := rfl

theorem lookupAttr_cons (a : String × PyVal) (t : List (String × PyVal)) (k : String) :
    lookupAttr (a :: t) k = if a.1 == k then some a.2 else lookupAttr t k := by
  by_cases h : (a.1 == k)
  · simp [lookupAttr, List.find?_cons_of_pos _ h, h]
  · simp only [Bool.not_eq_true] at h
    have h' : ¬ (fun (p : String × PyVal) => p.1 == k) a = true := by simp [h]
    simp [lookupAttr, List.find?_cons_of_neg _ h', h]

theorem dictFind_eq_lookupAttr (kvs : List (String × PyVal)) (k : String) :
    dictFind kvs k = lookupAttr kvs k := rfl

theorem lookupAttr_eq_none_of_not_mem (l : List (String × PyVal)) (k : String)
    (h : k ∉ l.map Prod.fst) : lookupAttr l k = Option.none := by
  induction l with
  | nil => rfl
  | cons a t ih =>
    rw [List.map_cons, List.mem_cons, not_or] at h
    rw [lookupAttr_cons, if_neg (by simp [Ne.symm h.1])]
    exact ih h.2

/-- Looking a key up after None-filtering: with unique keys, the result is
the stored value unless that value is None, in which case the attribute is
absent. -/
theorem lookupAttr_filter (attrs : List (String × PyVal)) (k : String)
    (h : (attrs.map Prod.fst).Nodup) :
    lookupAttr (set_optional_attributes attrs) k =
      (lookupAttr attrs k).bind (fun v => if v.isNone then Option.none else some v) := by
  induction attrs with
  | nil => rfl
  | cons a t ih =>
    rw [List.map_cons, List.nodup_cons] at h
    obtain ⟨h1, h2⟩ := h
    rw [set_optional_attributes, List.filter_cons]
    by_cases hk : a.1 = k
    · cases hv : a.2.isNone
      · rw [if_pos (by simp [hv]), lookupAttr_cons, if_pos (by simp [hk]),
          lookupAttr_cons, if_pos (by simp [hk])]
        simp [hv]
      · rw [if_neg (by simp [hv]), lookupAttr_cons, if_pos (by simp [hk])]
        have hnm : k ∉ (t.filter (fun p => !p.2.isNone)).map Prod.fst := fun hc => by
          apply h1
          rw [hk]
          exact List.map_subset Prod.fst (fun x hx => (List.filter_sublist t).subset hx) hc
        rw [lookupAttr_eq_none_of_not_mem _ _ hnm]
        simp [hv]
    · cases hv : a.2.isNone
      · rw [if_pos (by simp [hv]), lookupAttr_cons, if_neg (by simp [hk]),
          lookupAttr_cons, if_neg (by simp [hk])]
        exact ih h2
      · rw [if_neg (by simp [hv]), lookupAttr_cons, if_neg (by simp [hk])]
        exact ih h2

theorem lookupAttr_append (l1 l2 : List (String × PyVal)) (k : String) :
    lookupAttr (l1 ++ l2) k = (lookupAttr l1 k).or (lookupAttr l2 k) := by
  simp only [lookupAttr, List.find?_append]
  cases l1.find? (fun p => p.1 == k) <;> simp

theorem lookupAttr_if_single (c : Bool) (k : String) (v : PyVal) (q : String) :
    lookupAttr (if c then [(k, v)] else []) q =
      if c && (k == q) then some v else Option.none := by
  cases c
  · simp [lookupAttr]
  · rw [if_pos rfl, lookupAttr_cons]
    by_cases h : (k == q) <;> simp_all [lookupAttr]

/-- Coalescing with `or {}` does not change any field read. -/
theorem tGet_pyOr_empty (v : PyVal) (k : String) :
    tGet (pyOr v (PyVal.dict [])) k = tGet v k := by
  cases v with
  | none => rfl
  | bool b => cases b <;> rfl
  | int n =>
    simp only [pyOr, PyVal.isTruthy]
    split <;> rfl
  | str s =>
    simp only [pyOr, PyVal.isTruthy]
    split <;> rfl
  | list xs =>
    simp only [pyOr, PyVal.isTruthy]
    split <;> rfl
  | dict kvs =>
    rcases kvs with _ | ⟨a, t⟩ <;> rfl

theorem pyOr_empty_of_not_truthy (v : PyVal) (h : v.isTruthy = false) :
    pyOr v (PyVal.dict []) = PyVal.dict [] := by
  simp [pyOr, h]

/-- A `dictish` value coalesced with `or {}` is a dict. -/
theorem dictish_pyOr (v : PyVal) (h : dictish v = true) :
    ∃ kvs, pyOr v (PyVal.dict []) = PyVal.dict kvs := by
  cases ht : v.isTruthy with
  | false => exact ⟨[], pyOr_empty_of_not_truthy v ht⟩
  | true =>
    rw [dictish, ht] at h
    simp only [Bool.not_true, Bool.false_or] at h
    cases v
    case dict kvs => exact ⟨kvs, by simp [pyOr, ht]⟩
    all_goals simp [PyVal.isDict] at h

theorem isDict_elim (v : PyVal) (h : v.isDict = true) :
    ∃ kvs, v = PyVal.dict kvs := by
  cases v
  case dict kvs => exact ⟨kvs, rfl⟩
  all_goals simp [PyVal.isDict] at h

theorem listOrNone_elim (v : PyVal) (h : listOrNone v = true) :
    v = PyVal.none ∨ ∃ xs, v = PyVal.list xs := by
  cases v
  case none => exact Or.inl rfl
  case list xs => exact Or.inr ⟨xs, rfl⟩
  all_goals simp [listOrNone] at h

theorem listOfDictsOrNone_elim (v : PyVal) (h : listOfDictsOrNone v = true) :
    v = PyVal.none ∨ ∃ xs, v = PyVal.list xs ∧ ∀ c ∈ xs, c.isDict = true := by
  cases v
  case none => exact Or.inl rfl
  case list xs =>
    refine Or.inr ⟨xs, rfl, ?_⟩
    rw [listOfDictsOrNone, List.all_eq_true] at h
    exact h
  all_goals simp [listOfDictsOrNone] at h

theorem listOfDictsOrNone_listOrNone (v : PyVal) (h : listOfDictsOrNone v = true) :
    listOrNone v = true := by
  cases v <;> simp_all [listOfDictsOrNone, listOrNone]

theorem all_isStr_elim (xs : List PyVal) (h : xs.all PyVal.isStr = true) :
    ∃ ss : List String, xs = ss.map PyVal.str := by
  induction xs with
  | nil => exact ⟨[], rfl⟩
  | cons a t ih =>
    rw [List.all_cons, Bool.and_eq_true] at h
    obtain ⟨ss, hss⟩ := ih h.2
    have h1 := h.1
    cases a
    case str s => exact ⟨s :: ss, by simp [hss]⟩
    all_goals simp [PyVal.isStr] at h1

theorem strListOrNone_elim (v : PyVal) (h : strListOrNone v = true) :
    v = PyVal.none ∨ ∃ ss : List String, v = PyVal.list (ss.map PyVal.str) := by
  cases v
  case none => exact Or.inl rfl
  case list xs =>
    rw [strListOrNone] at h
    obtain ⟨ss, hss⟩ := all_isStr_elim xs h
    exact Or.inr ⟨ss, by rw [hss]⟩
  all_goals simp [strListOrNone] at h

theorem mapStrs_map_str (ss : List String) :
    mapStrs (ss.map PyVal.str) = some ss := by
  induction ss with
  | nil => rfl
  | cons s t ih => simp [mapStrs, pyStr?, ih]

theorem pyJoin_strs (sep : String) (ss : List String) :
    pyJoin sep (PyVal.list (ss.map PyVal.str)) = some (String.intercalate sep ss) := by
  simp [pyJoin, pyIter, mapStrs_map_str]

/-! Evaluation lemmas: on well-formed input each translated function
computes its functional model. -/

theorem pyCountIfNotNone_eval (v : PyVal) (h : listOrNone v = true) :
    pyCountIfNotNone v = some (countOf v) := by
  rcases listOrNone_elim _ h with rfl | ⟨xs, rfl⟩ <;>
    simp [pyCountIfNotNone, PyVal.isNone, pyLen, countOf]

theorem integrity_attributes_eval (skvs cpk mk ck wk : List (String × PyVal))
    (concerns values_checked conflicts : PyVal)
    (hc : listOrNone concerns = true) (hv : listOrNone values_checked = true)
    (hf : listOrNone conflicts = true) :
    integrity_attributes (PyVal.dict skvs) (PyVal.dict cpk) (PyVal.dict mk) (PyVal.dict ck)
      (PyVal.dict wk) concerns values_checked conflicts =
    some (integrity_attributes_model (PyVal.dict skvs) (PyVal.dict cpk) (PyVal.dict mk)
      (PyVal.dict ck) (PyVal.dict wk) concerns values_checked conflicts) := by
  simp only [integrity_attributes, integrity_attributes_model, pyGet, tGet_dict,
    pyCountIfNotNone_eval _ hc, pyCountIfNotNone_eval _ hv, pyCountIfNotNone_eval _ hf]

theorem concern_event_dict (kvs : List (String × PyVal)) :
    concern_event (PyVal.dict kvs) = some (concern_event_model (PyVal.dict kvs)) := rfl

theorem violation_event_dict (kvs : List (String × PyVal)) :
    violation_event (PyVal.dict kvs) = some (violation_event_model (PyVal.dict kvs)) := rfl

theorem mapEvents_concern (xs : List PyVal) (h : ∀ c ∈ xs, c.isDict = true) :
    mapEvents concern_event xs = some (xs.map concern_event_model) := by
  induction xs with
  | nil => rfl
  | cons a t ih =>
    obtain ⟨kvs, rfl⟩ := isDict_elim a (h a (List.mem_cons_self a t))
    simp [mapEvents, concern_event_dict,
      ih (fun c hc => h c (List.mem_cons_of_mem _ hc))]

theorem mapEvents_violation (xs : List PyVal) (h : ∀ c ∈ xs, c.isDict = true) :
    mapEvents violation_event xs = some (xs.map violation_event_model) := by
  induction xs with
  | nil => rfl
  | cons a t ih =>
    obtain ⟨kvs, rfl⟩ := isDict_elim a (h a (List.mem_cons_self a t))
    simp [mapEvents, violation_event_dict,
      ih (fun c hc => h c (List.mem_cons_of_mem _ hc))]

theorem concern_events_eval (concerns : PyVal) (h : listOfDictsOrNone concerns = true) :
    concern_events concerns =
      some (if concerns.isTruthy then (iterOf concerns).map concern_event_model else []) := by
  rcases listOfDictsOrNone_elim _ h with rfl | ⟨xs, rfl, hall⟩
  · rfl
  · rcases xs with _ | ⟨a, t⟩
    · rfl
    · simp [concern_events, PyVal.isTruthy, pyIter, iterOf, mapEvents_concern _ hall]

theorem violation_events_eval (violations : PyVal) (h : listOfDictsOrNone violations = true) :
    violation_events violations =
      some (if violations.isTruthy
            then (iterOf violations).map violation_event_model else []) := by
  rcases listOfDictsOrNone_elim _ h with rfl | ⟨xs, rfl, hall⟩
  · rfl
  · rcases xs with _ | ⟨a, t⟩
    · rfl
    · simp [violation_events, PyVal.isTruthy, pyIter, iterOf, mapEvents_violation _ hall]

theorem record_integrity_check_eval (signal : PyVal) (h : IntegrityWF signal = true) :
    record_integrity_check signal = some (integrity_span_model signal) := by
  rw [IntegrityWF] at h
  simp only [Bool.and_eq_true] at h
  obtain ⟨h0, hcp, hwin, hmeta, hcons, hconc, hvc, hcf⟩ := h
  obtain ⟨skvs, hs⟩ := dictish_pyOr signal h0
  rw [hs, tGet_dict] at hcp hwin hmeta hcons hconc hvc hcf
  obtain ⟨cpk, hcpk⟩ := dictish_pyOr _ hcp
  rw [hcpk, tGet_dict] at hmeta hcons hconc hvc hcf
  obtain ⟨wk, hwk⟩ := dictish_pyOr _ hwin
  obtain ⟨mk2, hmk⟩ := dictish_pyOr _ hmeta
  obtain ⟨ck, hck⟩ := dictish_pyOr _ hcons
  rw [hck, tGet_dict] at hvc hcf
  simp only [record_integrity_check, integrity_span_model, hs, tGet_dict, hcpk, hwk, hmk,
    hck, pyGet,
    integrity_attributes_eval skvs cpk mk2 ck wk _ _ _
      (listOfDictsOrNone_listOrNone _ hconc) hvc hcf,
    concern_events_eval _ hconc]

theorem checks_joined_eval (checks : PyVal) (h : strListOrNone checks = true) :
    (if checks.isTruthy then (pyJoin ", " checks).map PyVal.str else some PyVal.none) =
      some (checks_joined_model checks) := by
  rcases strListOrNone_elim _ h with rfl | ⟨ss, rfl⟩
  · rfl
  · rcases ss with _ | ⟨s, t⟩
    · rfl
    · have hj := pyJoin_strs ", " (s :: t)
      simp only [List.map_cons] at hj
      simp [PyVal.isTruthy, checks_joined_model, hj]

theorem record_verification_eval (result : PyVal) (h : VerificationWF result = true) :
    record_verification result = some (verification_span_model result) := by
  rw [VerificationWF] at h
  simp only [Bool.and_eq_true] at h
  obtain ⟨h0, hmeta, hviol, hwarn, hchecks⟩ := h
  obtain ⟨rk, hr⟩ := dictish_pyOr result h0
  rw [hr, tGet_dict] at hmeta hviol hwarn hchecks
  obtain ⟨mk2, hm⟩ := dictish_pyOr _ hmeta
  rw [hm, tGet_dict] at hchecks
  simp only [record_verification, verification_span_model, hr, hm, tGet_dict, pyGet,
    pyCountIfNotNone_eval _ (listOfDictsOrNone_listOrNone _ hviol),
    pyCountIfNotNone_eval _ hwarn, checks_joined_eval _ hchecks,
    violation_events_eval _ hviol]

theorem record_coherence_eval (result : PyVal) (h : CoherenceWF result = true) :
    record_coherence result = some (coherence_span_model result) := by
  rw [CoherenceWF] at h
  simp only [Bool.and_eq_true] at h
  obtain ⟨h0, hva, hmat, hconf⟩ := h
  obtain ⟨rk, hr⟩ := dictish_pyOr result h0
  rw [hr, tGet_dict] at hva hmat hconf
  obtain ⟨vak, hv⟩ := dictish_pyOr _ hva
  rw [hv, tGet_dict] at hmat hconf
  simp only [record_coherence, coherence_span_model, hr, hv, tGet_dict, pyGet,
    pyCountIfNotNone_eval _ hmat, pyCountIfNotNone_eval _ hconf]

theorem drift_event_attrs_eval (kvs : List (String × PyVal))
    (h : dictish (tGet (PyVal.dict kvs) "analysis") = true) :
    drift_event_attrs (PyVal.dict kvs) = some (drift_event_attrs_model (PyVal.dict kvs)) := by
  obtain ⟨akv, ha⟩ := dictish_pyOr _ h
  rw [tGet_dict] at ha
  simp only [drift_event_attrs, drift_event_attrs_model, pyGet, tGet_dict, ha]

theorem mapEvents_drift (xs : List PyVal) (h : ∀ a ∈ xs, DriftAlertWF a = true) :
    mapEvents drift_event xs =
      some (xs.map (fun a => SpanEvent.mk EVENT_AAP_DRIFT_ALERT (drift_event_attrs_model a))) := by
  induction xs with
  | nil => rfl
  | cons a t ih =>
    have ha := h a (List.mem_cons_self a t)
    rw [DriftAlertWF, Bool.and_eq_true] at ha
    obtain ⟨kvs, rfl⟩ := isDict_elim a ha.1
    simp [mapEvents, drift_event, drift_event_attrs_eval kvs ha.2,
      ih (fun c hc => h c (List.mem_cons_of_mem _ hc))]

theorem record_drift_eval (alerts : PyVal) (t : Int) (h : DriftWF alerts = true) :
    record_drift alerts t = some (drift_span_model alerts t) := by
  rw [DriftWF] at h
  cases hco : pyOr alerts (PyVal.list []) <;> rw [hco] at h
  case list xs =>
    rw [List.all_eq_true] at h
    simp only [record_drift, drift_span_model, hco]
    rcases xs with _ | ⟨a, t'⟩
    · simp [PyVal.isTruthy, pyIter, mapEvents, lenOrZero, iterOf]
    · simp [PyVal.isTruthy, pyIter, pyLen, lenOrZero, iterOf, mapEvents_drift _ h]
  all_goals simp at h

theorem concerns_metric_ops_eval (concerns verdict : PyVal) (h : listOrNone concerns = true) :
    concerns_metric_ops concerns verdict =
      some (if concerns.isTruthy
            then [MetricOp.add "concerns" (Int.ofNat (lenOrZero concerns)) [("verdict", verdict)]]
            else []) := by
  rcases listOrNone_elim _ h with rfl | ⟨xs, rfl⟩
  · rfl
  · by_cases ht : (PyVal.list xs).isTruthy <;>
      simp [concerns_metric_ops, ht, pyLen, lenOrZero]

theorem record_integrity_metrics_eval (signal : PyVal) (h : IntegrityWF signal = true) :
    record_integrity_metrics signal = some (integrity_metrics_model signal) := by
  rw [IntegrityWF] at h
  simp only [Bool.and_eq_true] at h
  obtain ⟨h0, hcp, hwin, hmeta, _, hconc, _, _⟩ := h
  obtain ⟨skvs, hs⟩ := dictish_pyOr signal h0
  rw [hs, tGet_dict] at hcp hwin hmeta hconc
  obtain ⟨cpk, hcpk⟩ := dictish_pyOr _ hcp
  rw [hcpk, tGet_dict] at hmeta hconc
  obtain ⟨wk, hwk⟩ := dictish_pyOr _ hwin
  obtain ⟨mk2, hmk⟩ := dictish_pyOr _ hmeta
  simp only [record_integrity_metrics, integrity_metrics_model, hs, tGet_dict, hcpk, hwk,
    hmk, pyGet,
    concerns_metric_ops_eval _ _ (listOfDictsOrNone_listOrNone _ hconc)]

/-! Lookup lemmas: computing single attributes of the span models, and
normalising the coalesced access chains to `getPath`. -/

theorem tGet_chain1 (v : PyVal) (k : String) :
    tGet (pyOr v (PyVal.dict [])) k = getPath v [k] := by
  rw [tGet_pyOr_empty]
  rfl

theorem tGet_chain2 (v : PyVal) (k1 k2 : String) :
    tGet (pyOr (tGet (pyOr v (PyVal.dict [])) k1) (PyVal.dict [])) k2 =
      getPath v [k1, k2] := by
  rw [tGet_pyOr_empty, tGet_pyOr_empty]
  rfl

theorem tGet_chain3 (v : PyVal) (k1 k2 k3 : String) :
    tGet (pyOr (tGet (pyOr (tGet (pyOr v (PyVal.dict [])) k1) (PyVal.dict [])) k2)
      (PyVal.dict [])) k3 = getPath v [k1, k2, k3] := by
  rw [tGet_pyOr_empty, tGet_pyOr_empty, tGet_pyOr_empty]
  rfl

theorem integrity_keys_nodup (s cp meta conscience win concerns values_checked conflicts : PyVal) :
    ((integrity_attributes_model s cp meta conscience win concerns values_checked
      conflicts).map Prod.fst).Nodup := by
  simp only [integrity_attributes_model, List.map_cons, List.map_nil]
  decide

theorem countAttrOk_of_lookup (sp : Span) (key : String) (src : PyVal)
    (h : lookupAttr sp.attributes key =
      (if (countOf src).isNone then Option.none else some (countOf src))) :
    countAttrOk sp key src := by
  constructor
  · intro hn
    rw [h, hn]
    rfl
  · intro xs hx
    rw [h, hx]
    rfl

theorem integrity_model_lookup_concerns
    (s cp meta conscience win concerns values_checked conflicts : PyVal) :
    lookupAttr (integrity_attributes_model s cp meta conscience win concerns values_checked
      conflicts) AIP_INTEGRITY_CONCERNS_COUNT = some (countOf concerns) := by
  simp [integrity_attributes_model, lookupAttr_cons, AIP_INTEGRITY_CHECKPOINT_ID,
    AIP_INTEGRITY_VERDICT, AIP_INTEGRITY_AGENT_ID, AIP_INTEGRITY_CARD_ID,
    AIP_INTEGRITY_SESSION_ID, AIP_INTEGRITY_THINKING_HASH, AIP_INTEGRITY_PROCEED,
    AIP_INTEGRITY_RECOMMENDED_ACTION, AIP_INTEGRITY_CONCERNS_COUNT]

theorem integrity_model_lookup_values_checked
    (s cp meta conscience win concerns values_checked conflicts : PyVal) :
    lookupAttr (integrity_attributes_model s cp meta conscience win concerns values_checked
      conflicts) AIP_CONSCIENCE_VALUES_CHECKED_COUNT = some (countOf values_checked) := by
  simp [integrity_attributes_model, lookupAttr_cons, AIP_INTEGRITY_CHECKPOINT_ID,
    AIP_INTEGRITY_VERDICT, AIP_INTEGRITY_AGENT_ID, AIP_INTEGRITY_CARD_ID,
    AIP_INTEGRITY_SESSION_ID, AIP_INTEGRITY_THINKING_HASH, AIP_INTEGRITY_PROCEED,
    AIP_INTEGRITY_RECOMMENDED_ACTION, AIP_INTEGRITY_CONCERNS_COUNT,
    AIP_INTEGRITY_ANALYSIS_MODEL, AIP_INTEGRITY_ANALYSIS_DURATION_MS,
    AIP_INTEGRITY_THINKING_TOKENS, AIP_INTEGRITY_TRUNCATED,
    AIP_INTEGRITY_EXTRACTION_CONFIDENCE, AIP_CONSCIENCE_CONSULTATION_DEPTH,
    AIP_CONSCIENCE_VALUES_CHECKED_COUNT]

theorem integrity_model_lookup_conflicts
    (s cp meta conscience win concerns values_checked conflicts : PyVal) :
    lookupAttr (integrity_attributes_model s cp meta conscience win concerns values_checked
      conflicts) AIP_CONSCIENCE_CONFLICTS_COUNT = some (countOf conflicts) := by
  simp [integrity_attributes_model, lookupAttr_cons, AIP_INTEGRITY_CHECKPOINT_ID,
    AIP_INTEGRITY_VERDICT, AIP_INTEGRITY_AGENT_ID, AIP_INTEGRITY_CARD_ID,
    AIP_INTEGRITY_SESSION_ID, AIP_INTEGRITY_THINKING_HASH, AIP_INTEGRITY_PROCEED,
    AIP_INTEGRITY_RECOMMENDED_ACTION, AIP_INTEGRITY_CONCERNS_COUNT,
    AIP_INTEGRITY_ANALYSIS_MODEL, AIP_INTEGRITY_ANALYSIS_DURATION_MS,
    AIP_INTEGRITY_THINKING_TOKENS, AIP_INTEGRITY_TRUNCATED,
    AIP_INTEGRITY_EXTRACTION_CONFIDENCE, AIP_CONSCIENCE_CONSULTATION_DEPTH,
    AIP_CONSCIENCE_VALUES_CHECKED_COUNT, AIP_CONSCIENCE_CONFLICTS_COUNT]

theorem verification_model_lookup_violations (result : PyVal) :
    lookupAttr (verification_span_model result).attributes AAP_VERIFICATION_VIOLATIONS_COUNT =
      (if (countOf (getPath result ["violations"])).isNone then Option.none
       else some (countOf (getPath result ["violations"]))) := by
  simp only [verification_span_model, build_span]
  rw [lookupAttr_filter _ _ (by simp only [List.map_cons, List.map_nil]; decide)]
  rw [← tGet_chain1 result "violations"]
  simp [lookupAttr_cons, AAP_VERIFICATION_RESULT, AAP_VERIFICATION_SIMILARITY_SCORE,
    AAP_VERIFICATION_VIOLATIONS_COUNT]

theorem verification_model_lookup_warnings (result : PyVal) :
    lookupAttr (verification_span_model result).attributes AAP_VERIFICATION_WARNINGS_COUNT =
      (if (countOf (getPath result ["warnings"])).isNone then Option.none
       else some (countOf (getPath result ["warnings"]))) := by
  simp only [verification_span_model, build_span]
  rw [lookupAttr_filter _ _ (by simp only [List.map_cons, List.map_nil]; decide)]
  rw [← tGet_chain1 result "warnings"]
  simp [lookupAttr_cons, AAP_VERIFICATION_RESULT, AAP_VERIFICATION_SIMILARITY_SCORE,
    AAP_VERIFICATION_VIOLATIONS_COUNT, AAP_VERIFICATION_WARNINGS_COUNT]

theorem verification_model_lookup_checks (result : PyVal) :
    lookupAttr (verification_span_model result).attributes AAP_VERIFICATION_CHECKS_PERFORMED =
      (if (checks_joined_model
            (getPath result ["verification_metadata", "checks_performed"])).isNone
       then Option.none
       else some (checks_joined_model
            (getPath result ["verification_metadata", "checks_performed"]))) := by
  simp only [verification_span_model, build_span]
  rw [lookupAttr_filter _ _ (by simp only [List.map_cons, List.map_nil]; decide)]
  rw [← tGet_chain2 result "verification_metadata" "checks_performed"]
  simp [lookupAttr_cons, AAP_VERIFICATION_RESULT, AAP_VERIFICATION_SIMILARITY_SCORE,
    AAP_VERIFICATION_VIOLATIONS_COUNT, AAP_VERIFICATION_WARNINGS_COUNT,
    AAP_VERIFICATION_TRACE_ID, AAP_VERIFICATION_CARD_ID, AAP_VERIFICATION_DURATION_MS,
    AAP_VERIFICATION_CHECKS_PERFORMED]

theorem coherence_model_lookup_matched (result : PyVal) :
    lookupAttr (coherence_span_model result).attributes AAP_COHERENCE_MATCHED_COUNT =
      (if (countOf (getPath result ["value_alignment", "matched"])).isNone then Option.none
       else some (countOf (getPath result ["value_alignment", "matched"]))) := by
  simp only [coherence_span_model, build_span]
  rw [lookupAttr_filter _ _ (by simp only [List.map_cons, List.map_nil]; decide)]
  rw [← tGet_chain2 result "value_alignment" "matched"]
  simp [lookupAttr_cons, AAP_COHERENCE_COMPATIBLE, AAP_COHERENCE_SCORE,
    AAP_COHERENCE_PROCEED, AAP_COHERENCE_MATCHED_COUNT]

theorem coherence_model_lookup_conflicts (result : PyVal) :
    lookupAttr (coherence_span_model result).attributes AAP_COHERENCE_CONFLICT_COUNT =
      (if (countOf (getPath result ["value_alignment", "conflicts"])).isNone then Option.none
       else some (countOf (getPath result ["value_alignment", "conflicts"]))) := by
  simp only [coherence_span_model, build_span]
  rw [lookupAttr_filter _ _ (by simp only [List.map_cons, List.map_nil]; decide)]
  rw [← tGet_chain2 result "value_alignment" "conflicts"]
  simp [lookupAttr_cons, AAP_COHERENCE_COMPATIBLE, AAP_COHERENCE_SCORE,
    AAP_COHERENCE_PROCEED, AAP_COHERENCE_MATCHED_COUNT, AAP_COHERENCE_CONFLICT_COUNT]

theorem integrity_span_lookup_concerns (signal : PyVal) :
    lookupAttr (integrity_span_model signal).attributes AIP_INTEGRITY_CONCERNS_COUNT =
      (if (countOf (getPath signal ["checkpoint", "concerns"])).isNone then Option.none
       else some (countOf (getPath signal ["checkpoint", "concerns"]))) := by
  simp only [integrity_span_model, build_span]
  rw [lookupAttr_filter _ _ (integrity_keys_nodup _ _ _ _ _ _ _ _),
    integrity_model_lookup_concerns, tGet_chain2]
  rfl

theorem integrity_span_lookup_values_checked (signal : PyVal) :
    lookupAttr (integrity_span_model signal).attributes AIP_CONSCIENCE_VALUES_CHECKED_COUNT =
      (if (countOf (getPath signal
            ["checkpoint", "conscience_context", "values_checked"])).isNone then Option.none
       else some (countOf (getPath signal
            ["checkpoint", "conscience_context", "values_checked"]))) := by
  simp only [integrity_span_model, build_span]
  rw [lookupAttr_filter _ _ (integrity_keys_nodup _ _ _ _ _ _ _ _),
    integrity_model_lookup_values_checked, tGet_chain3]
  rfl

theorem integrity_span_lookup_conflicts (signal : PyVal) :
    lookupAttr (integrity_span_model signal).attributes AIP_CONSCIENCE_CONFLICTS_COUNT =
      (if (countOf (getPath signal
            ["checkpoint", "conscience_context", "conflicts"])).isNone then Option.none
       else some (countOf (getPath signal
            ["checkpoint", "conscience_context", "conflicts"]))) := by
  simp only [integrity_span_model, build_span]
  rw [lookupAttr_filter _ _ (integrity_keys_nodup _ _ _ _ _ _ _ _),
    integrity_model_lookup_conflicts, tGet_chain3]
  rfl

/-- C1: for every count-bearing attribute of the integrity, verification
and coherence mappers (concerns_count, values_checked_count,
conflicts_count, violations_count, warnings_count, matched_count,
conflict_count), an absent or None source list yields an absent span
attribute, an empty source list yields the attribute with value 0, and a
list of N entries yields the attribute with value N. -/
theorem count_attributes_absent_empty_length :
    (∀ signal span, IntegrityWF signal = true →
      record_integrity_check signal = some span →
      countAttrOk span AIP_INTEGRITY_CONCERNS_COUNT
        (getPath signal ["checkpoint", "concerns"]) ∧
      countAttrOk span AIP_CONSCIENCE_VALUES_CHECKED_COUNT
        (getPath signal ["checkpoint", "conscience_context", "values_checked"]) ∧
      countAttrOk span AIP_CONSCIENCE_CONFLICTS_COUNT
        (getPath signal ["checkpoint", "conscience_context", "conflicts"])) ∧
    (∀ result span, VerificationWF result = true →
      record_verification result = some span →
      countAttrOk span AAP_VERIFICATION_VIOLATIONS_COUNT (getPath result ["violations"]) ∧
      countAttrOk span AAP_VERIFICATION_WARNINGS_COUNT (getPath result ["warnings"])) ∧
    (∀ result span, CoherenceWF result = true →
      record_coherence result = some span →
      countAttrOk span AAP_COHERENCE_MATCHED_COUNT
        (getPath result ["value_alignment", "matched"]) ∧
      countAttrOk span AAP_COHERENCE_CONFLICT_COUNT
        (getPath result ["value_alignment", "conflicts"])) := by
  refine ⟨?_, ?_, ?_⟩
  · intro signal span hw he
    rw [record_integrity_check_eval signal hw] at he
    injection he with he
    subst he
    exact ⟨countAttrOk_of_lookup _ _ _ (integrity_span_lookup_concerns signal),
      countAttrOk_of_lookup _ _ _ (integrity_span_lookup_values_checked signal),
      countAttrOk_of_lookup _ _ _ (integrity_span_lookup_conflicts signal)⟩
  · intro result span hw he
    rw [record_verification_eval result hw] at he
    injection he with he
    subst he
    exact ⟨countAttrOk_of_lookup _ _ _ (verification_model_lookup_violations result),
      countAttrOk_of_lookup _ _ _ (verification_model_lookup_warnings result)⟩
  · intro result span hw he
    rw [record_coherence_eval result hw] at he
    injection he with he
    subst he
    exact ⟨countAttrOk_of_lookup _ _ _ (coherence_model_lookup_matched result),
      countAttrOk_of_lookup _ _ _ (coherence_model_lookup_conflicts result)⟩

/-- Witness for C1 at concrete inputs: one concern gives count 1, the
empty violations list gives count 0, an absent value_alignment gives no
matched_count attribute. -/
theorem count_attributes_absent_empty_length_witness :
    lookupAttr (integrity_span_model exSignal).attributes AIP_INTEGRITY_CONCERNS_COUNT =
      some (PyVal.int 1) ∧
    lookupAttr (verification_span_model exVerification).attributes
      AAP_VERIFICATION_VIOLATIONS_COUNT = some (PyVal.int 0) ∧
    lookupAttr (coherence_span_model exCoherence).attributes AAP_COHERENCE_MATCHED_COUNT =
      Option.none := by
  refine ⟨?_, ?_, ?_⟩
  · exact (count_attributes_absent_empty_length.1 exSignal _ (by rfl) rfl).1.2
      [PyVal.dict [("category", PyVal.str "value_misalignment"),
        ("severity", PyVal.str "medium")]] rfl
  · exact (count_attributes_absent_empty_length.2.1 exVerification _ (by rfl) rfl).1.2 [] rfl
  · exact (count_attributes_absent_empty_length.2.2 exCoherence _ (by rfl) rfl).1.1 rfl

theorem pyOr_none (d : PyVal) : pyOr PyVal.none d = d := rfl

theorem pyOr_empty_dict (d : PyVal) : pyOr (PyVal.dict []) d = d := rfl

theorem tGet_none (k : String) : tGet PyVal.none k = PyVal.none := rfl

/-- C2: each of the four record mappers is total on its loosely-typed
record domain -- any combination of absent or None fields and absent
parent objects, including the None record and the empty record -- and an
absent parent object is treated identically to an empty one: the None
record equals the empty record for all four mappers, and every parent
object of the data model may be dropped or set to the empty object
without changing the mapped span -- `checkpoint` and `window_summary` of
an integrity signal, `analysis_metadata` and `conscience_context` of a
checkpoint, `verification_metadata` of a verification result,
`value_alignment` of a coherence result, and `analysis` of a drift
alert. -/
theorem mappers_total :
    (∀ signal, IntegrityWF signal = true → (record_integrity_check signal).isSome = true) ∧
    (∀ result, VerificationWF result = true → (record_verification result).isSome = true) ∧
    (∀ result, CoherenceWF result = true → (record_coherence result).isSome = true) ∧
    (∀ alerts t, DriftWF alerts = true → (record_drift alerts t).isSome = true) ∧
    record_integrity_check PyVal.none = record_integrity_check (PyVal.dict []) ∧
    record_verification PyVal.none = record_verification (PyVal.dict []) ∧
    record_coherence PyVal.none = record_coherence (PyVal.dict []) ∧
    record_drift PyVal.none 0 = record_drift (PyVal.list []) 0 ∧
    (∀ rest, "checkpoint" ∉ rest.map Prod.fst → IntegrityWF (PyVal.dict rest) = true →
      IntegrityWF (PyVal.dict (("checkpoint", PyVal.dict []) :: rest)) = true →
      record_integrity_check (PyVal.dict rest) =
        record_integrity_check (PyVal.dict (("checkpoint", PyVal.dict []) :: rest))) ∧
    (∀ rest, "window_summary" ∉ rest.map Prod.fst → IntegrityWF (PyVal.dict rest) = true →
      IntegrityWF (PyVal.dict (("window_summary", PyVal.dict []) :: rest)) = true →
      record_integrity_check (PyVal.dict rest) =
        record_integrity_check (PyVal.dict (("window_summary", PyVal.dict []) :: rest))) ∧
    (∀ cprest rest, "analysis_metadata" ∉ cprest.map Prod.fst →
      IntegrityWF (PyVal.dict (("checkpoint", PyVal.dict cprest) :: rest)) = true →
      IntegrityWF (PyVal.dict (("checkpoint",
        PyVal.dict (("analysis_metadata", PyVal.dict []) :: cprest)) :: rest)) = true →
      record_integrity_check (PyVal.dict (("checkpoint", PyVal.dict cprest) :: rest)) =
        record_integrity_check (PyVal.dict (("checkpoint",
          PyVal.dict (("analysis_metadata", PyVal.dict []) :: cprest)) :: rest))) ∧
    (∀ cprest rest, "conscience_context" ∉ cprest.map Prod.fst →
      IntegrityWF (PyVal.dict (("checkpoint", PyVal.dict cprest) :: rest)) = true →
      IntegrityWF (PyVal.dict (("checkpoint",
        PyVal.dict (("conscience_context", PyVal.dict []) :: cprest)) :: rest)) = true →
      record_integrity_check (PyVal.dict (("checkpoint", PyVal.dict cprest) :: rest)) =
        record_integrity_check (PyVal.dict (("checkpoint",
          PyVal.dict (("conscience_context", PyVal.dict []) :: cprest)) :: rest))) ∧
    (∀ rest, "verification_metadata" ∉ rest.map Prod.fst →
      VerificationWF (PyVal.dict rest) = true →
      VerificationWF (PyVal.dict (("verification_metadata", PyVal.dict []) :: rest)) = true →
      record_verification (PyVal.dict rest) =
        record_verification (PyVal.dict (("verification_metadata", PyVal.dict []) :: rest))) ∧
    (∀ rest, "value_alignment" ∉ rest.map Prod.fst →
      CoherenceWF (PyVal.dict rest) = true →
      CoherenceWF (PyVal.dict (("value_alignment", PyVal.dict []) :: rest)) = true →
      record_coherence (PyVal.dict rest) =
        record_coherence (PyVal.dict (("value_alignment", PyVal.dict []) :: rest))) ∧
    (∀ pre post akvs t, "analysis" ∉ akvs.map Prod.fst →
      DriftWF (PyVal.list (pre ++ PyVal.dict akvs :: post)) = true →
      DriftWF (PyVal.list
        (pre ++ PyVal.dict (("analysis", PyVal.dict []) :: akvs) :: post)) = true →
      record_drift (PyVal.list (pre ++ PyVal.dict akvs :: post)) t =
        record_drift (PyVal.list
          (pre ++ PyVal.dict (("analysis", PyVal.dict []) :: akvs) :: post)) t) := by
  refine ⟨?_, ?_, ?_, ?_, rfl, rfl, rfl, rfl, ?_, ?_, ?_, ?_, ?_, ?_, ?_⟩
  · intro signal hw
    rw [record_integrity_check_eval signal hw]
    rfl
  · intro r hw
    rw [record_verification_eval r hw]
    rfl
  · intro r hw
    rw [record_coherence_eval r hw]
    rfl
  · intro a t hw
    rw [record_drift_eval a t hw]
    rfl
  · intro rest hnm hw1 hw2
    have hget : dictGet rest "checkpoint" = PyVal.none := by
      rw [dictGet, dictFind_eq_lookupAttr, lookupAttr_eq_none_of_not_mem rest _ hnm]
      rfl
    rw [record_integrity_check_eval _ hw1, record_integrity_check_eval _ hw2]
    congr 1
    simp only [integrity_span_model, integrity_attributes_model, build_span]
    simp only [tGet_pyOr_empty, tGet_dict]
    simp only [dictGet_cons, String.reduceBEq, reduceIte]
    simp only [hget, tGet_none, tGet_dict, dictGet_nil, pyOr_none, pyOr_empty_dict]
    simp
  · intro rest hnm hw1 hw2
    have hget : dictGet rest "window_summary" = PyVal.none := by
      rw [dictGet, dictFind_eq_lookupAttr, lookupAttr_eq_none_of_not_mem rest _ hnm]
      rfl
    rw [record_integrity_check_eval _ hw1, record_integrity_check_eval _ hw2]
    congr 1
    simp only [integrity_span_model, integrity_attributes_model, build_span]
    simp only [tGet_pyOr_empty]
    simp only [hget, tGet_dict, tGet_none, dictGet_cons, dictGet_nil, String.reduceBEq,
      reduceIte, pyOr_none, pyOr_empty_dict]
    simp
  · intro cprest rest hnm hw1 hw2
    have hget : dictGet cprest "analysis_metadata" = PyVal.none := by
      rw [dictGet, dictFind_eq_lookupAttr, lookupAttr_eq_none_of_not_mem cprest _ hnm]
      rfl
    rw [record_integrity_check_eval _ hw1, record_integrity_check_eval _ hw2]
    congr 1
    simp only [integrity_span_model, integrity_attributes_model, build_span]
    simp only [tGet_pyOr_empty]
    simp only [hget, tGet_dict, tGet_none, dictGet_cons, dictGet_nil, String.reduceBEq,
      reduceIte, pyOr_none, pyOr_empty_dict]
    simp
  · intro cprest rest hnm hw1 hw2
    have hget : dictGet cprest "conscience_context" = PyVal.none := by
      rw [dictGet, dictFind_eq_lookupAttr, lookupAttr_eq_none_of_not_mem cprest _ hnm]
      rfl
    rw [record_integrity_check_eval _ hw1, record_integrity_check_eval _ hw2]
    congr 1
    simp only [integrity_span_model, integrity_attributes_model, build_span]
    simp only [tGet_pyOr_empty]
    simp only [hget, tGet_dict, tGet_none, dictGet_cons, dictGet_nil, String.reduceBEq,
      reduceIte, pyOr_none, pyOr_empty_dict]
    simp
  · intro rest hnm hw1 hw2
    have hget : dictGet rest "verification_metadata" = PyVal.none := by
      rw [dictGet, dictFind_eq_lookupAttr, lookupAttr_eq_none_of_not_mem rest _ hnm]
      rfl
    rw [record_verification_eval _ hw1, record_verification_eval _ hw2]
    congr 1
    simp only [verification_span_model, build_span]
    simp only [tGet_pyOr_empty]
    simp only [hget, tGet_dict, tGet_none, dictGet_cons, dictGet_nil, String.reduceBEq,
      reduceIte, pyOr_none, pyOr_empty_dict]
    simp
  · intro rest hnm hw1 hw2
    have hget : dictGet rest "value_alignment" = PyVal.none := by
      rw [dictGet, dictFind_eq_lookupAttr, lookupAttr_eq_none_of_not_mem rest _ hnm]
      rfl
    rw [record_coherence_eval _ hw1, record_coherence_eval _ hw2]
    congr 1
    simp only [coherence_span_model, build_span]
    simp only [tGet_pyOr_empty]
    simp only [hget, tGet_dict, tGet_none, dictGet_cons, dictGet_nil, String.reduceBEq,
      reduceIte, pyOr_none, pyOr_empty_dict]
    simp
  · intro pre post akvs t hnm hw1 hw2
    have hget : dictGet akvs "analysis" = PyVal.none := by
      rw [dictGet, dictFind_eq_lookupAttr, lookupAttr_eq_none_of_not_mem akvs _ hnm]
      rfl
    rw [record_drift_eval _ t hw1, record_drift_eval _ t hw2]
    congr 1
    have htrL : pyOr (PyVal.list (pre ++ PyVal.dict akvs :: post)) (PyVal.list []) =
        PyVal.list (pre ++ PyVal.dict akvs :: post) := by
      cases pre <;> simp [pyOr, PyVal.isTruthy]
    have htrR : pyOr (PyVal.list
          (pre ++ PyVal.dict (("analysis", PyVal.dict []) :: akvs) :: post)) (PyVal.list []) =
        PyVal.list (pre ++ PyVal.dict (("analysis", PyVal.dict []) :: akvs) :: post) := by
      cases pre <;> simp [pyOr, PyVal.isTruthy]
    have hmid : drift_event_attrs_model (PyVal.dict akvs) =
        drift_event_attrs_model (PyVal.dict (("analysis", PyVal.dict []) :: akvs)) := by
      simp only [drift_event_attrs_model, hget, tGet_dict, tGet_none, dictGet_cons,
        dictGet_nil, String.reduceBEq, reduceIte, pyOr_none, pyOr_empty_dict]
      simp
    simp only [drift_span_model, build_span, htrL, htrR, iterOf, lenOrZero,
      List.map_append, List.map_cons, List.length_append, List.length_cons, hmid]

/-- Witness for C2: the None record is accepted; a record without a
checkpoint maps to the same span as one with an empty checkpoint; a
coherence result without a value_alignment maps like one with an empty
value_alignment; and a drift alert without an analysis maps like one with
an empty analysis. -/
theorem mappers_total_witness :
    (record_integrity_check PyVal.none).isSome = true ∧
    record_integrity_check (PyVal.dict [("proceed", PyVal.bool true)]) =
      record_integrity_check (PyVal.dict
        [("checkpoint", PyVal.dict []), ("proceed", PyVal.bool true)]) ∧
    record_coherence (PyVal.dict [("compatible", PyVal.bool true)]) =
      record_coherence (PyVal.dict
        [("value_alignment", PyVal.dict []), ("compatible", PyVal.bool true)]) ∧
    record_drift (PyVal.list [PyVal.dict [("alert_type", PyVal.str "drift")]]) 0 =
      record_drift (PyVal.list
        [PyVal.dict [("analysis", PyVal.dict []), ("alert_type", PyVal.str "drift")]]) 0 := by
  refine ⟨mappers_total.1 PyVal.none rfl, ?_, ?_, ?_⟩
  · exact mappers_total.2.2.2.2.2.2.2.2.1 [("proceed", PyVal.bool true)] (by decide) rfl rfl
  · exact mappers_total.2.2.2.2.2.2.2.2.2.2.2.2.2.1
      [("compatible", PyVal.bool true)] (by decide) rfl rfl
  · exact mappers_total.2.2.2.2.2.2.2.2.2.2.2.2.2.2
      [] [] [("alert_type", PyVal.str "drift")] 0 (by decide) rfl rfl

/-- C3 (counterexample): on a concrete input the integrity mapper's
attribute dict has 22 entries, so the claimed count of exactly 21 keys is
false. -/
theorem integrity_attribute_set_21_counterexample :
    (integrity_attributes (PyVal.dict []) (PyVal.dict []) (PyVal.dict []) (PyVal.dict [])
      (PyVal.dict []) PyVal.none PyVal.none PyVal.none).map List.length = some 22 ∧
    ¬((integrity_attributes (PyVal.dict []) (PyVal.dict []) (PyVal.dict []) (PyVal.dict [])
      (PyVal.dict []) PyVal.none PyVal.none PyVal.none).map List.length = some 21) := by
  exact ⟨by decide, by decide⟩

/-- C3 (amended): the integrity-check mapper builds an attribute set of
exactly 22 distinct keys, composed of 6 checkpoint fields, 3 signal-level
fields, 5 analysis-metadata fields, 3 conscience fields, 3 window fields
and 2 forward-compatibility alias keys, in that order. -/
theorem integrity_attribute_set_22_keys :
    (∀ skvs cpk mk ck wk concerns values_checked conflicts
        (l : List (String × PyVal)),
      listOrNone concerns = true → listOrNone values_checked = true →
      listOrNone conflicts = true →
      integrity_attributes (PyVal.dict skvs) (PyVal.dict cpk) (PyVal.dict mk)
        (PyVal.dict ck) (PyVal.dict wk) concerns values_checked conflicts = some l →
      l.map Prod.fst =
        integrity_checkpoint_keys ++ integrity_signal_keys ++ integrity_analysis_keys ++
        integrity_conscience_keys ++ integrity_window_keys ++ integrity_alias_keys) ∧
    integrity_checkpoint_keys.length = 6 ∧
    integrity_signal_keys.length = 3 ∧
    integrity_analysis_keys.length = 5 ∧
    integrity_conscience_keys.length = 3 ∧
    integrity_window_keys.length = 3 ∧
    integrity_alias_keys.length = 2 ∧
    (integrity_checkpoint_keys ++ integrity_signal_keys ++ integrity_analysis_keys ++
      integrity_conscience_keys ++ integrity_window_keys ++
      integrity_alias_keys).length = 22 ∧
    (integrity_checkpoint_keys ++ integrity_signal_keys ++ integrity_analysis_keys ++
      integrity_conscience_keys ++ integrity_window_keys ++
      integrity_alias_keys).Nodup := by
  refine ⟨?_, by decide, by decide, by decide, by decide, by decide, by decide,
    by decide, by decide⟩
  intro skvs cpk mk ck wk concerns values_checked conflicts l hc hv hf he
  rw [integrity_attributes_eval skvs cpk mk ck wk concerns values_checked conflicts
    hc hv hf] at he
  injection he with he
  subst he
  simp only [integrity_attributes_model, List.map_cons, List.map_nil]
  decide

/-- Witness for C3's amended statement at a concrete input. -/
theorem integrity_attribute_set_22_keys_witness :
    (integrity_attributes_model (PyVal.dict []) (PyVal.dict []) (PyVal.dict [])
      (PyVal.dict []) (PyVal.dict []) PyVal.none PyVal.none PyVal.none).map Prod.fst =
      integrity_checkpoint_keys ++ integrity_signal_keys ++ integrity_analysis_keys ++
      integrity_conscience_keys ++ integrity_window_keys ++ integrity_alias_keys :=
  integrity_attribute_set_22_keys.1 [] [] [] [] [] PyVal.none PyVal.none PyVal.none _
    rfl rfl rfl rfl

/-- C4 (counterexample): `create_aip_metrics` creates 9 instruments, 4 of
them histograms, so the claimed 8 instruments with 3 histograms is
false. -/
theorem create_aip_metrics_8_counterexample :
    create_aip_metrics.length = 9 ∧
    (create_aip_metrics.filter (fun p => p.2.isHistogram)).length = 4 ∧
    ¬(create_aip_metrics.length = 8) ∧
    ¬((create_aip_metrics.filter (fun p => p.2.isHistogram)).length = 3) := by
  exact ⟨by decide, by decide, by decide, by decide⟩

/-- C4 (amended): the metrics-instrument factory creates exactly 9
instruments per meter, of which 5 are counters and 4 are histograms,
returned as a map with distinct names. -/
theorem create_aip_metrics_9_instruments :
    create_aip_metrics.length = 9 ∧
    (create_aip_metrics.filter (fun p => p.2.isCounter)).length = 5 ∧
    (create_aip_metrics.filter (fun p => p.2.isHistogram)).length = 4 ∧
    (create_aip_metrics.map Prod.fst).Nodup ∧
    create_aip_metrics.all (fun p => p.2.isCounter || p.2.isHistogram) = true := by
  exact ⟨by decide, by decide, by decide, by decide, by decide⟩

/-- C5: the verification mapper's checks_performed attribute is the
comma-and-space join of a present non-empty source list, and is omitted
entirely when the source list is absent/None or empty. -/
theorem checks_performed_join :
    ∀ result span, VerificationWF result = true → record_verification result = some span →
      (∀ ss : List String, ss ≠ [] →
        getPath result ["verification_metadata", "checks_performed"] =
          PyVal.list (ss.map PyVal.str) →
        lookupAttr span.attributes AAP_VERIFICATION_CHECKS_PERFORMED =
          some (PyVal.str (String.intercalate ", " ss))) ∧
      (getPath result ["verification_metadata", "checks_performed"] = PyVal.none →
        lookupAttr span.attributes AAP_VERIFICATION_CHECKS_PERFORMED = Option.none) ∧
      (getPath result ["verification_metadata", "checks_performed"] = PyVal.list [] →
        lookupAttr span.attributes AAP_VERIFICATION_CHECKS_PERFORMED = Option.none) := by
  intro result span hw he
  rw [record_verification_eval result hw] at he
  injection he with he
  subst he
  refine ⟨?_, ?_, ?_⟩
  · intro ss hne hsrc
    rw [verification_model_lookup_checks, hsrc]
    rcases ss with _ | ⟨s, t⟩
    · exact absurd rfl hne
    · have hj := pyJoin_strs ", " (s :: t)
      simp only [List.map_cons] at hj ⊢
      simp [checks_joined_model, PyVal.isTruthy, hj, PyVal.isNone]
  · intro hsrc
    rw [verification_model_lookup_checks, hsrc]
    rfl
  · intro hsrc
    rw [verification_model_lookup_checks, hsrc]
    rfl

/-- Witness for C5: checks_performed ["a", "b"] serialises to "a, b". -/
theorem checks_performed_join_witness :
    lookupAttr (verification_span_model exVerification).attributes
      AAP_VERIFICATION_CHECKS_PERFORMED = some (PyVal.str "a, b") := by
  exact (checks_performed_join exVerification _ (by rfl) rfl).1 ["a", "b"] (by simp) rfl

theorem filter_concern_of_map (xs : List PyVal) :
    (xs.map concern_event_model).filter (fun e => e.name == EVENT_AIP_CONCERN) =
      xs.map concern_event_model := by
  rw [List.filter_eq_self]
  intro e he
  obtain ⟨c, _, rfl⟩ := List.mem_map.mp he
  simp [concern_event_model]

theorem filter_concern_cons_map (a : PyVal) (t : List PyVal) :
    List.filter (fun e => e.name == EVENT_AIP_CONCERN)
      (concern_event_model a :: t.map concern_event_model) =
      concern_event_model a :: t.map concern_event_model := by
  have h := filter_concern_of_map (a :: t)
  simpa using h

theorem filter_drift_not_concern (b : Bool) :
    ((if b then [SpanEvent.mk EVENT_AIP_DRIFT_ALERT []] else []).filter
      (fun e => e.name == EVENT_AIP_CONCERN)) = [] := by
  cases b <;> simp [EVENT_AIP_DRIFT_ALERT, EVENT_AIP_CONCERN]

/-- C6: the integrity mapper emits exactly one `aip.concern` event per
concern entry and the verification mapper exactly one event per violation
entry; every such event carries exactly the three attribute keys
category/severity/description (resp. type/severity/description), and a
sub-field missing from the concern or violation dict materialises as the
empty string rather than being omitted. -/
theorem concern_violation_events :
    (∀ signal span, IntegrityWF signal = true →
      record_integrity_check signal = some span →
      (span.events.filter (fun e => e.name == EVENT_AIP_CONCERN)).length =
        lenOrZero (getPath signal ["checkpoint", "concerns"]) ∧
      (∀ xs, getPath signal ["checkpoint", "concerns"] = PyVal.list xs →
        span.events.filter (fun e => e.name == EVENT_AIP_CONCERN) =
          xs.map concern_event_model)) ∧
    (∀ result span, VerificationWF result = true →
      record_verification result = some span →
      span.events.length = lenOrZero (getPath result ["violations"]) ∧
      (∀ xs, getPath result ["violations"] = PyVal.list xs →
        span.events = xs.map violation_event_model)) ∧
    (∀ c, (concern_event_model c).attributes.map Prod.fst =
      ["category", "severity", "description"]) ∧
    (∀ v, (violation_event_model v).attributes.map Prod.fst =
      ["type", "severity", "description"]) ∧
    (∀ kvs, dictFind kvs "category" = Option.none →
      lookupAttr (concern_event_model (PyVal.dict kvs)).attributes "category" =
        some (PyVal.str "")) ∧
    (∀ kvs, dictFind kvs "description" = Option.none →
      lookupAttr (concern_event_model (PyVal.dict kvs)).attributes "description" =
        some (PyVal.str "")) ∧
    (∀ kvs, dictFind kvs "type" = Option.none →
      lookupAttr (violation_event_model (PyVal.dict kvs)).attributes "type" =
        some (PyVal.str "")) := by
  refine ⟨?_, ?_, fun c => rfl, fun v => rfl, ?_, ?_, ?_⟩
  · intro signal span hw he
    rw [record_integrity_check_eval signal hw] at he
    injection he with he
    subst he
    have hconc : listOfDictsOrNone (getPath signal ["checkpoint", "concerns"]) = true := by
      rw [IntegrityWF] at hw
      simp only [Bool.and_eq_true] at hw
      obtain ⟨_, _, _, _, _, hconc, _, _⟩ := hw
      rwa [tGet_chain2] at hconc
    constructor
    · simp only [integrity_span_model, build_span]
      rw [List.filter_append, filter_drift_not_concern, List.append_nil, tGet_chain2]
      rcases listOfDictsOrNone_elim _ hconc with hnone | ⟨xs, hlist, _⟩
      · rw [hnone]
        simp [PyVal.isTruthy, lenOrZero]
      · rw [hlist]
        rcases xs with _ | ⟨a, t⟩
        · simp [PyVal.isTruthy, lenOrZero]
        · simp [PyVal.isTruthy, iterOf, lenOrZero, filter_concern_cons_map]
    · intro xs hsrc
      simp only [integrity_span_model, build_span]
      rw [List.filter_append, filter_drift_not_concern, List.append_nil, tGet_chain2, hsrc]
      rcases xs with _ | ⟨a, t⟩
      · simp [PyVal.isTruthy]
      · simp [PyVal.isTruthy, iterOf, filter_concern_cons_map]
  · intro result span hw he
    rw [record_verification_eval result hw] at he
    injection he with he
    subst he
    have hviol : listOfDictsOrNone (getPath result ["violations"]) = true := by
      rw [VerificationWF] at hw
      simp only [Bool.and_eq_true] at hw
      obtain ⟨_, _, hviol, _, _⟩ := hw
      rwa [tGet_chain1] at hviol
    constructor
    · simp only [verification_span_model, build_span]
      rw [tGet_chain1]
      rcases listOfDictsOrNone_elim _ hviol with hnone | ⟨xs, hlist, _⟩
      · rw [hnone]
        simp [PyVal.isTruthy, lenOrZero]
      · rw [hlist]
        rcases xs with _ | ⟨a, t⟩ <;> simp [PyVal.isTruthy, iterOf, lenOrZero]
    · intro xs hsrc
      simp only [verification_span_model, build_span]
      rw [tGet_chain1, hsrc]
      rcases xs with _ | ⟨a, t⟩
      · simp [PyVal.isTruthy]
      · simp [PyVal.isTruthy, iterOf]
  · intro kvs h
    simp [concern_event_model, lookupAttr_cons, tGetD, h]
  · intro kvs h
    simp [concern_event_model, lookupAttr_cons, tGetD, h]
  · intro kvs h
    simp [violation_event_model, lookupAttr_cons, tGetD, h]

/-- Witness for C6: one concern in the example signal yields exactly one
concern event, and a concern with no category gets category "". -/
theorem concern_violation_events_witness :
    ((integrity_span_model exSignal).events.filter
      (fun e => e.name == EVENT_AIP_CONCERN)).length = 1 ∧
    lookupAttr (concern_event_model (PyVal.dict [])).attributes "category" =
      some (PyVal.str "") := by
  constructor
  · exact (concern_violation_events.1 exSignal _ (by rfl) rfl).1
  · exact concern_violation_events.2.2.2.2.1 [] rfl

theorem lenOrZero_pyOr_list (v : PyVal) :
    lenOrZero (pyOr v (PyVal.list [])) = lenOrZero v := by
  cases v with
  | list xs => rcases xs with _ | ⟨a, t⟩ <;> rfl
  | none => rfl
  | bool b => cases b <;> rfl
  | int n =>
    simp only [pyOr, PyVal.isTruthy]
    split <;> rfl
  | str s =>
    simp only [pyOr, PyVal.isTruthy]
    split <;> rfl
  | dict kvs => rcases kvs with _ | ⟨a, t⟩ <;> rfl

theorem iterOf_pyOr_list (v : PyVal) :
    iterOf (pyOr v (PyVal.list [])) = iterOf v := by
  cases v with
  | list xs => rcases xs with _ | ⟨a, t⟩ <;> rfl
  | none => rfl
  | bool b => cases b <;> rfl
  | int n =>
    simp only [pyOr, PyVal.isTruthy]
    split <;> rfl
  | str s =>
    simp only [pyOr, PyVal.isTruthy]
    split <;> rfl
  | dict kvs => rcases kvs with _ | ⟨a, t⟩ <;> rfl

theorem iterOf_length (v : PyVal) : (iterOf v).length = lenOrZero v := by
  cases v <;> rfl

/-- C7: the drift mapper always sets alerts_count to the length of the
alert list (0 when the list is absent or None), always sets
traces_analyzed, emits exactly one event per alert, and each event
attribute is set only when its source field is present -- so an alert
without an analysis sub-object yields an event lacking exactly the two
analysis-derived keys. -/
theorem drift_alerts_spec :
    (∀ alerts t span, DriftWF alerts = true → record_drift alerts t = some span →
      lookupAttr span.attributes AAP_DRIFT_ALERTS_COUNT =
        some (PyVal.int (lenOrZero alerts)) ∧
      lookupAttr span.attributes AAP_DRIFT_TRACES_ANALYZED = some (PyVal.int t) ∧
      span.events = (iterOf alerts).map
        (fun a => SpanEvent.mk EVENT_AAP_DRIFT_ALERT (drift_event_attrs_model a)) ∧
      span.events.length = lenOrZero alerts) ∧
    (∀ a, lookupAttr (drift_event_attrs_model a) "alert_type" =
        optIfPresent (tGet a "alert_type") ∧
      lookupAttr (drift_event_attrs_model a) "agent_id" =
        optIfPresent (tGet a "agent_id") ∧
      lookupAttr (drift_event_attrs_model a) "card_id" =
        optIfPresent (tGet a "card_id") ∧
      lookupAttr (drift_event_attrs_model a) "similarity_score" =
        optIfPresent (tGet (pyOr (tGet a "analysis") (PyVal.dict [])) "similarity_score") ∧
      lookupAttr (drift_event_attrs_model a) "drift_direction" =
        optIfPresent (tGet (pyOr (tGet a "analysis") (PyVal.dict [])) "drift_direction") ∧
      lookupAttr (drift_event_attrs_model a) "recommendation" =
        optIfPresent (tGet a "recommendation")) ∧
    (∀ a, tGet a "analysis" = PyVal.none →
      lookupAttr (drift_event_attrs_model a) "similarity_score" = Option.none ∧
      lookupAttr (drift_event_attrs_model a) "drift_direction" = Option.none) := by
  refine ⟨?_, ?_, ?_⟩
  · intro alerts t span hw he
    rw [record_drift_eval alerts t hw] at he
    injection he with he
    subst he
    refine ⟨?_, ?_, ?_, ?_⟩
    · simp only [drift_span_model, build_span, lenOrZero_pyOr_list]
      simp [set_optional_attributes, lookupAttr_cons, PyVal.isNone,
        AAP_DRIFT_ALERTS_COUNT]
    · simp only [drift_span_model, build_span]
      simp [set_optional_attributes, lookupAttr_cons, PyVal.isNone,
        AAP_DRIFT_ALERTS_COUNT, AAP_DRIFT_TRACES_ANALYZED]
    · simp only [drift_span_model, build_span, iterOf_pyOr_list]
    · simp only [drift_span_model, build_span, iterOf_pyOr_list, List.length_map,
        iterOf_length]
  · intro a
    refine ⟨?_, ?_, ?_, ?_, ?_, ?_⟩ <;>
      · cases hv1 : (tGet a "alert_type").isNone <;>
        cases hv2 : (tGet a "agent_id").isNone <;>
        cases hv3 : (tGet a "card_id").isNone <;>
        cases hv4 : (tGet (pyOr (tGet a "analysis") (PyVal.dict []))
          "similarity_score").isNone <;>
        cases hv5 : (tGet (pyOr (tGet a "analysis") (PyVal.dict []))
          "drift_direction").isNone <;>
        cases hv6 : (tGet a "recommendation").isNone <;>
        simp [drift_event_attrs_model, lookupAttr_append, lookupAttr_if_single,
          lookupAttr_cons, lookupAttr_nil, optIfPresent, hv1, hv2, hv3, hv4, hv5, hv6]
  · intro a ha
    have hnone : PyVal.isNone PyVal.none = true := rfl
    constructor <;>
      · cases hv1 : (tGet a "alert_type").isNone <;>
        cases hv2 : (tGet a "agent_id").isNone <;>
        cases hv3 : (tGet a "card_id").isNone <;>
        cases hv6 : (tGet a "recommendation").isNone <;>
        simp [drift_event_attrs_model, lookupAttr_append, lookupAttr_if_single,
          lookupAttr_cons, lookupAttr_nil, ha, pyOr_none, tGet_dict, dictGet_nil,
          hnone, hv1, hv2, hv3, hv6]

/-- Witness for C7: one alert with no analysis gives alerts_count 1 and an
event without similarity_score. -/
theorem drift_alerts_spec_witness :
    lookupAttr (drift_span_model exDriftAlerts 5).attributes AAP_DRIFT_ALERTS_COUNT =
      some (PyVal.int 1) ∧
    lookupAttr (drift_event_attrs_model
      (PyVal.dict [("alert_type", PyVal.str "drift_detected")])) "similarity_score" =
      Option.none := by
  constructor
  · exact (drift_alerts_spec.1 exDriftAlerts 5 _ (by rfl) rfl).1
  · exact (drift_alerts_spec.2.2
      (PyVal.dict [("alert_type", PyVal.str "drift_detected")]) rfl).1

/-- C8: the span emitter returns one span with the requested name, kind
INTERNAL, status OK, already ended, whose attribute map is exactly the
input with None-valued entries dropped (never coerced); each of the four
mappers emits its span under the kind's fixed name with OK status. -/
theorem span_emitter_spec :
    (∀ n attrs events, build_span n attrs events =
      Span.mk n "INTERNAL" (set_optional_attributes attrs) events "OK" true) ∧
    (∀ attrs, set_optional_attributes attrs = attrs.filter (fun p => !p.2.isNone)) ∧
    (∀ n attrs events p, p ∈ (build_span n attrs events).attributes →
      p.2.isNone = false) ∧
    (∀ signal span, IntegrityWF signal = true →
      record_integrity_check signal = some span →
      span.name = SPAN_AIP_INTEGRITY_CHECK ∧ span.status = "OK" ∧ span.ended = true) ∧
    (∀ result span, VerificationWF result = true →
      record_verification result = some span →
      span.name = SPAN_AAP_VERIFY_TRACE ∧ span.status = "OK" ∧ span.ended = true) ∧
    (∀ result span, CoherenceWF result = true →
      record_coherence result = some span →
      span.name = SPAN_AAP_CHECK_COHERENCE ∧ span.status = "OK" ∧ span.ended = true) ∧
    (∀ alerts t span, DriftWF alerts = true → record_drift alerts t = some span →
      span.name = SPAN_AAP_DETECT_DRIFT ∧ span.status = "OK" ∧ span.ended = true) := by
  refine ⟨fun n attrs events => rfl, fun attrs => rfl, ?_, ?_, ?_, ?_, ?_⟩
  · intro n attrs events p hp
    simp only [build_span, set_optional_attributes] at hp
    have h := List.of_mem_filter hp
    simpa using h
  · intro signal span hw he
    rw [record_integrity_check_eval signal hw] at he
    injection he with he
    subst he
    exact ⟨rfl, rfl, rfl⟩
  · intro result span hw he
    rw [record_verification_eval result hw] at he
    injection he with he
    subst he
    exact ⟨rfl, rfl, rfl⟩
  · intro result span hw he
    rw [record_coherence_eval result hw] at he
    injection he with he
    subst he
    exact ⟨rfl, rfl, rfl⟩
  · intro alerts t span hw he
    rw [record_drift_eval alerts t hw] at he
    injection he with he
    subst he
    exact ⟨rfl, rfl, rfl⟩

/-- Witness for C8: the empty integrity record yields the fixed span name
with OK status and an ended span. -/
theorem span_emitter_spec_witness :
    (integrity_span_model PyVal.none).name = SPAN_AIP_INTEGRITY_CHECK ∧
    (integrity_span_model PyVal.none).status = "OK" ∧
    (integrity_span_model PyVal.none).ended = true := by
  exact span_emitter_spec.2.2.2.1 PyVal.none _ rfl rfl

/-- C9: obtaining the auto-instrumentation adapter without the optional
`opentelemetry-instrumentation` dependency fails at the attribute access
itself with an ImportError whose message names the missing dependency,
while with the dependency installed the access succeeds. -/
theorem instrumentor_import_spec :
    package_getattr false "AIPInstrumentor" =
      Except.error INSTRUMENTOR_IMPORT_ERROR_MSG ∧
    containsSubstr INSTRUMENTOR_IMPORT_ERROR_MSG "opentelemetry-instrumentation" = true ∧
    package_getattr true "AIPInstrumentor" = Except.ok "AIPInstrumentor" := by
  exact ⟨rfl, by decide, rfl⟩

/-- C10: the integrity metrics recorder labels the checks counter with
"unknown" whenever the verdict is falsy (absent, None or the empty
string), and with the verdict string itself whenever it is a non-empty
string. -/
theorem verdict_label_spec :
    ∀ signal ops, IntegrityWF signal = true →
      record_integrity_metrics signal = some ops →
      ((getPath signal ["checkpoint", "verdict"]).isTruthy = false →
        ops.head? = some (MetricOp.add "integrity_checks" 1
          [("verdict", PyVal.str "unknown")])) ∧
      (∀ s, s ≠ "" → getPath signal ["checkpoint", "verdict"] = PyVal.str s →
        ops.head? = some (MetricOp.add "integrity_checks" 1
          [("verdict", PyVal.str s)])) := by
  intro signal ops hw he
  rw [record_integrity_metrics_eval signal hw] at he
  injection he with he
  subst he
  constructor
  · intro hf
    simp only [integrity_metrics_model, tGet_chain2]
    simp [pyOr, hf]
  · intro s hs hsrc
    simp only [integrity_metrics_model, tGet_chain2]
    rw [hsrc]
    simp [pyOr, PyVal.isTruthy, hs]

/-- Witness for C10: the example signal's verdict "review_needed" is used
verbatim as the counter label. -/
theorem verdict_label_spec_witness :
    (integrity_metrics_model exSignal).head? =
      some (MetricOp.add "integrity_checks" 1
        [("verdict", PyVal.str "review_needed")]) := by
  exact (verdict_label_spec exSignal _ (by rfl) rfl).2 "review_needed" (by decide) rfl
